import Mathlib

set_option maxHeartbeats 1000000

/-!
Shallow embedding of the dwg2xls pattern-matching and signal-flow core.

Each definition is translated from the Python sources under
`src/dwg2xls/core/autocad` and `src/dwg2xls/core/broadcast`; the file
name and function of origin are noted on every definition.
-/

namespace Dwg2xls

/-! ## ASCII character classes, mirroring the Python `re` classes used by the code.

Python `re` classes on `str` are unicode-aware; every pattern in the source
only uses ASCII classes (`[A-Z]`, `[0-9]`, `\d`, `\s`, `[0-9A-Fa-f]`), and we
model the ASCII behaviour. -/

def isDigitC (c : Char) : Bool := 48 ≤ c.toNat && c.toNat ≤ 57

def isUpperC (c : Char) : Bool := 65 ≤ c.toNat && c.toNat ≤ 90

def isLowerC (c : Char) : Bool := 97 ≤ c.toNat && c.toNat ≤ 122

/-- `[A-Z]` under `re.IGNORECASE`: either case matches. -/
def isAlphaCI (c : Char) : Bool := isUpperC c || isLowerC c

/-- `\s` (ASCII part): space, tab, newline, carriage return, vertical tab, form feed. -/
def isSpaceC (c : Char) : Bool :=
  c == ' ' || c == '\t' || c == '\n' || c == '\r' || c.toNat == 11 || c.toNat == 12

/-- Lower-cased code point (ASCII case folding), used for `re.IGNORECASE` literals. -/
def lowerNat (c : Char) : Nat := if isUpperC c then c.toNat + 32 else c.toNat

/-- Case-insensitive character comparison (ASCII), as under `re.IGNORECASE`. -/
def ciIs (c d : Char) : Bool := lowerNat c == lowerNat d

/-! ## A small regular-expression engine (Brzozowski derivatives).

Used to embed the *boolean* pattern tests of the source (`re.search(p, t)`
used only for its truthiness).  Capture-group extraction is embedded
separately by explicit parsers at the call sites that use groups. -/

inductive Regex where
  | eps : Regex
  | cls (p : Char → Bool) : Regex
  | seq (a b : Regex) : Regex
  | alt (a b : Regex) : Regex
  | star (a : Regex) : Regex

def Regex.nullable : Regex → Bool
  | .eps => true
  | .cls _ => false
  | .seq a b => a.nullable && b.nullable
  | .alt a b => a.nullable || b.nullable
  | .star _ => true

def Regex.deriv : Regex → Char → Regex
  | .eps, _ => .cls (fun _ => false)
  | .cls p, c => if p c then .eps else .cls (fun _ => false)
  | .seq a b, c =>
      if a.nullable then .alt (.seq (a.deriv c) b) (b.deriv c) else .seq (a.deriv c) b
  | .alt a b, c => .alt (a.deriv c) (b.deriv c)
  | .star a, c => .seq (a.deriv c) (.star a)

/-- Whole-string match of a regex (no implicit anchors). -/
def rmatch (r : Regex) (s : List Char) : Bool :=
  (s.foldl Regex.deriv r).nullable

def rchar (c : Char) : Regex := .cls (fun d => d == c)

def rchci (c : Char) : Regex := .cls (fun d => ciIs d c)

/-- Case-sensitive literal string. -/
def rlits (s : String) : Regex := s.data.foldr (fun c r => .seq (rchar c) r) .eps

/-- Case-insensitive literal string (`re.IGNORECASE`). -/
def rlitsCI (s : String) : Regex := s.data.foldr (fun c r => .seq (rchci c) r) .eps

/-- `r?` -/
def ropt (r : Regex) : Regex := .alt r .eps

/-- `r+` -/
def rplus (r : Regex) : Regex := .seq r (.star r)

/-- `r{n}` -/
def rrep (r : Regex) : Nat → Regex
  | 0 => .eps
  | n + 1 => .seq r (rrep r n)

/-- `r{m,n}`: `m` mandatory copies then `n - m` optional ones (boolean-equivalent). -/
def rrange (r : Regex) (m n : Nat) : Regex := .seq (rrep r m) (rrep (ropt r) (n - m))

def rdigit : Regex := .cls isDigitC

/-- `.` in Python `re` (no DOTALL): any character except newline. -/
def rdot : Regex := .cls (fun c => !(c == '\n'))

/-- Any character at all: used to embed the implicit scan of `re.search`. -/
def rany : Regex := .cls (fun _ => true)

def anyStar : Regex := .star rany

/-- `re.search(p, s)` for an unanchored pattern `p`: some substring matches. -/
def searchR (r : Regex) (s : List Char) : Bool :=
  rmatch (.seq anyStar (.seq r anyStar)) s

/-- `re.search('p$', s)`: a substring ending at the end of `s` (or just before a
final newline, the Python `$` rule) matches. -/
def searchEnd (r : Regex) (s : List Char) : Bool :=
  rmatch (.seq anyStar (.seq r (ropt (rchar '\n')))) s

/-- `re.search('^p$', s)` without MULTILINE: the whole string (up to an optional
final newline) matches. -/
def matchFull (r : Regex) (s : List Char) : Bool :=
  rmatch (.seq r (ropt (rchar '\n'))) s

/-! ## Greedy bounded character runs.

Used by the explicit capture-group parsers: `takeWhileUpTo p n l` consumes
greedily at most `n` characters satisfying `p` from the front of `l`
(the semantics of a greedy `p{m,n}` item whose follower cannot overlap `p`). -/

def takeWhileUpTo (p : Char → Bool) : Nat → List Char → List Char × List Char
  | _, [] => ([], [])
  | 0, l => ([], l)
  | n + 1, c :: cs =>
      if p c then
        let (t, r) := takeWhileUpTo p n cs
        (c :: t, r)
      else ([], c :: cs)

/-- Greedy unbounded run (`p*` on a character class). -/
def spanC (p : Char → Bool) : List Char → List Char × List Char
  | [] => ([], [])
  | c :: cs =>
      if p c then
        let (t, r) := spanC p cs
        (c :: t, r)
      else ([], c :: cs)

/-! ## `core/autocad/pattern_matchers.py` — `CircuitIdentifier`

`identify_circuit_type` tries, in dict order, the anchored (`re.match`,
`re.IGNORECASE`) patterns

  mcr       : `MCR\s*(?P<number>[0-9]{3,4})`        "Motor Control Relay"
  panel     : `(?P<panel>[A-Z]{1,2})(?P<circuit>[0-9]{1,3})`  "Panel Circuit"
  emergency : `E(?P<panel>[A-Z])(?P<number>[0-9]{2,3})`       "Emergency Circuit"
  control   : `C(?P<type>[A-Z])(?P<number>[0-9]{2,3})`        "Control Circuit"

and on the first success returns `{'type', 'description', 'components'
(= groupdict), 'original'}`; if none matches, `{'type': 'unknown',
'original'}`.  Each pattern is embedded as an explicit anchored parser
returning the groupdict; greedy bounded repetitions are embedded with
`takeWhileUpTo`/`spanC` (no backtracking branch is needed: in every one of
these patterns the character classes of adjacent greedy items are disjoint,
so giving back a character can never turn failure into success). -/

namespace PatternMatchers

/-- The result dict of `CircuitIdentifier.identify_circuit_type`.  The
`description`/`components` keys are absent in the `unknown` case, hence
`Option`. -/
structure ResolvedCircuit where
  type : String
  description : Option String
  components : Option (List (String × String))
  original : String
deriving DecidableEq, Repr

/-- `re.match(r'MCR\s*(?P<number>[0-9]{3,4})', s, re.IGNORECASE)`, as groupdict. -/
def mcrMatch (s : List Char) : Option (List (String × String)) :=
  match s with
  | c1 :: c2 :: c3 :: rest =>
      if ciIs c1 'M' && ciIs c2 'C' && ciIs c3 'R' then
        let (_, r1) := spanC isSpaceC rest
        let (ds, _) := takeWhileUpTo isDigitC 4 r1
        if 3 ≤ ds.length then some [("number", String.mk ds)] else none
      else none
  | _ => none

/-- `re.match(r'(?P<panel>[A-Z]{1,2})(?P<circuit>[0-9]{1,3})', s, re.IGNORECASE)`. -/
def panelMatch (s : List Char) : Option (List (String × String)) :=
  let (ls, r) := takeWhileUpTo isAlphaCI 2 s
  if ls.length == 0 then none
  else
    let (ds, _) := takeWhileUpTo isDigitC 3 r
    if ds.length == 0 then none
    else some [("panel", String.mk ls), ("circuit", String.mk ds)]

/-- `re.match(r'E(?P<panel>[A-Z])(?P<number>[0-9]{2,3})', s, re.IGNORECASE)`. -/
def emergencyMatch (s : List Char) : Option (List (String × String)) :=
  match s with
  | e :: p :: rest =>
      if ciIs e 'E' && isAlphaCI p then
        let (ds, _) := takeWhileUpTo isDigitC 3 rest
        if 2 ≤ ds.length then some [("panel", String.mk [p]), ("number", String.mk ds)]
        else none
      else none
  | _ => none

/-- `re.match(r'C(?P<type>[A-Z])(?P<number>[0-9]{2,3})', s, re.IGNORECASE)`. -/
def controlMatch (s : List Char) : Option (List (String × String)) :=
  match s with
  | c :: t :: rest =>
      if ciIs c 'C' && isAlphaCI t then
        let (ds, _) := takeWhileUpTo isDigitC 3 rest
        if 2 ≤ ds.length then some [("type", String.mk [t]), ("number", String.mk ds)]
        else none
      else none
  | _ => none

/-- `CircuitIdentifier.identify_circuit_type`. -/
def identify_circuit_type (circuit_id : String) : ResolvedCircuit :=
  match mcrMatch circuit_id.data with
  | some comps => ⟨"mcr", some "Motor Control Relay", some comps, circuit_id⟩
  | none =>
  match panelMatch circuit_id.data with
  | some comps => ⟨"panel", some "Panel Circuit", some comps, circuit_id⟩
  | none =>
  match emergencyMatch circuit_id.data with
  | some comps => ⟨"emergency", some "Emergency Circuit", some comps, circuit_id⟩
  | none =>
  match controlMatch circuit_id.data with
  | some comps => ⟨"control", some "Control Circuit", some comps, circuit_id⟩
  | none => ⟨"unknown", none, none, circuit_id⟩

example : (identify_circuit_type "A1-103").type = "panel" := by decide
example : (identify_circuit_type "A1-103").components
    = some [("panel", "A"), ("circuit", "1")] := by decide
example : (identify_circuit_type "MCR1038").type = "mcr" := by decide
example : (identify_circuit_type "MCR 1039").components = some [("number", "1039")] := by decide
example : (identify_circuit_type "EA103").type = "panel" := by decide
example : (identify_circuit_type "E@12").type = "unknown" := by decide
example : (identify_circuit_type "LP2-24").components
    = some [("panel", "LP"), ("circuit", "2")] := by decide

end PatternMatchers

/-! ### Facts about the character classes and greedy runs -/

lemma isDigitC_toNat {c : Char} (h : isDigitC c = true) : 48 ≤ c.toNat ∧ c.toNat ≤ 57 := by
  simpa [isDigitC] using h

lemma isUpperC_toNat {c : Char} (h : isUpperC c = true) : 65 ≤ c.toNat ∧ c.toNat ≤ 90 := by
  simpa [isUpperC] using h

lemma isAlphaCI_of_upper {c : Char} (h : isUpperC c = true) : isAlphaCI c = true := by
  simp [isAlphaCI, h]

lemma isAlphaCI_of_digit {c : Char} (h : isDigitC c = true) : isAlphaCI c = false := by
  obtain ⟨h1, h2⟩ := isDigitC_toNat h
  simp only [isAlphaCI, isUpperC, isLowerC, Bool.or_eq_false_iff, Bool.and_eq_false_iff,
    decide_eq_false_iff_not, not_le]
  omega

lemma lowerNat_of_digit {c : Char} (h : isDigitC c = true) : lowerNat c = c.toNat := by
  obtain ⟨h1, h2⟩ := isDigitC_toNat h
  have hu : isUpperC c = false := by
    simp only [isUpperC, Bool.and_eq_false_iff, decide_eq_false_iff_not, not_le]
    omega
  simp [lowerNat, hu]

lemma ciIs_C_of_digit {c : Char} (h : isDigitC c = true) : ciIs c 'C' = false := by
  obtain ⟨h1, h2⟩ := isDigitC_toNat h
  have hC : lowerNat 'C' = 99 := by decide
  simp only [ciIs, lowerNat_of_digit h, hC, beq_eq_false_iff_ne, ne_eq]
  omega

lemma ciIs_R_of_digit {c : Char} (h : isDigitC c = true) : ciIs c 'R' = false := by
  obtain ⟨h1, h2⟩ := isDigitC_toNat h
  have hR : lowerNat 'R' = 114 := by decide
  simp only [ciIs, lowerNat_of_digit h, hR, beq_eq_false_iff_ne, ne_eq]
  omega

lemma takeWhileUpTo_all (p : Char → Bool) :
    ∀ (n : Nat) (l : List Char), (∀ c ∈ l, p c = true) → l.length ≤ n →
      takeWhileUpTo p n l = (l, []) := by
  intro n l
  induction l generalizing n with
  | nil => intro _ _; cases n <;> rfl
  | cons c cs ih =>
      intro hall hlen
      cases n with
      | zero => simp at hlen
      | succ m =>
          have hc : p c = true := hall c (by simp)
          simp [takeWhileUpTo, hc, ih m (fun x hx => hall x (by simp [hx])) (by simpa using hlen)]

lemma takeWhileUpTo_stop (p : Char → Bool) :
    ∀ (n : Nat) (l1 : List Char) (c : Char) (l2 : List Char),
    (∀ x ∈ l1, p x = true) → l1.length ≤ n → p c = false →
      takeWhileUpTo p n (l1 ++ c :: l2) = (l1, c :: l2) := by
  intro n l1
  induction l1 generalizing n with
  | nil =>
      intro c l2 _ _ hc
      cases n with
      | zero => rfl
      | succ m => simp [takeWhileUpTo, hc]
  | cons a t ih =>
      intro c l2 hall hlen hc
      cases n with
      | zero => simp at hlen
      | succ m =>
          have ha : p a = true := hall a (by simp)
          simp [takeWhileUpTo, ha,
            ih m c l2 (fun x hx => hall x (by simp [hx])) (by simpa using hlen) hc]

namespace PatternMatchers

/-- C1, counterexample: on input `"A1-103"` the panel pattern
`(?P<panel>[A-Z]{1,2})(?P<circuit>[0-9]{1,3})` is applied with `re.match`,
which is anchored at the start only and whose greedy groups stop at the
hyphen, so the captured components are `panel="A"`, `circuit="1"` — not the
`panel="A1"`, `circuit="103"` the claim asserts. -/
theorem c1_panel_counterexample :
    (identify_circuit_type "A1-103").type = "panel" ∧
    (identify_circuit_type "A1-103").components = some [("panel", "A"), ("circuit", "1")] ∧
    (identify_circuit_type "A1-103").components ≠ some [("panel", "A1"), ("circuit", "103")] := by
  refine ⟨by decide, by decide, by decide⟩

/-- C1, amended: for every circuit id that consists entirely of one or two
uppercase letters followed by one to three digits (a full match of the panel
pattern `[A-Z]{1,2}[0-9]{1,3}`), `identify_circuit_type` returns type
`"panel"` with components capturing exactly the letters as `panel` and the
digits as `circuit`.  On `"A1-103"` the anchored, greedy match instead
captures `panel="A"`, `circuit="1"` (see the counterexample). -/
theorem c1_panel_amended (ls ds : List Char)
    (h1 : 1 ≤ ls.length) (h2 : ls.length ≤ 2) (hup : ∀ c ∈ ls, isUpperC c = true)
    (h3 : 1 ≤ ds.length) (h4 : ds.length ≤ 3) (hdig : ∀ c ∈ ds, isDigitC c = true) :
    identify_circuit_type (String.mk (ls ++ ds)) =
      ⟨"panel", some "Panel Circuit",
        some [("panel", String.mk ls), ("circuit", String.mk ds)], String.mk (ls ++ ds)⟩ := by
  have hmcr : mcrMatch (ls ++ ds) = none := by
    rcases ls with _ | ⟨a, _ | ⟨b, _ | ⟨x, ls'⟩⟩⟩
    · simp at h1
    · rcases ds with _ | ⟨d1, _ | ⟨d2, _ | ⟨d3, _ | ⟨d4, ds'⟩⟩⟩⟩
      · simp at h3
      · rfl
      · have hc := ciIs_C_of_digit (hdig d1 (by simp))
        simp [mcrMatch, hc]
      · have hc := ciIs_C_of_digit (hdig d1 (by simp))
        simp [mcrMatch, hc]
      · simp at h4
    · rcases ds with _ | ⟨d1, ds''⟩
      · simp at h3
      · have hr := ciIs_R_of_digit (hdig d1 (by simp))
        simp [mcrMatch, hr]
    · simp at h2
  have hpan : panelMatch (ls ++ ds)
      = some [("panel", String.mk ls), ("circuit", String.mk ds)] := by
    obtain ⟨d, ds', rfl⟩ : ∃ d ds', ds = d :: ds' := by
      cases ds with
      | nil => simp at h3
      | cons d ds' => exact ⟨d, ds', rfl⟩
    have hstop := takeWhileUpTo_stop isAlphaCI 2 ls d ds'
      (fun x hx => isAlphaCI_of_upper (hup x hx)) h2
      (isAlphaCI_of_digit (hdig d (by simp)))
    have hall := takeWhileUpTo_all isDigitC 3 (d :: ds') hdig h4
    have hne : (ls.length == 0) = false := by
      cases ls with
      | nil => simp at h1
      | cons a t => simp
    simp [panelMatch, hstop, hall, hne]
  show identify_circuit_type ⟨ls ++ ds⟩ = _
  simp only [identify_circuit_type, hmcr, hpan]

/-- Witness for `c1_panel_amended` at the concrete panel id `"AB123"`. -/
theorem c1_panel_witness :
    identify_circuit_type (String.mk (['A', 'B'] ++ ['1', '2', '3'])) =
      ⟨"panel", some "Panel Circuit",
        some [("panel", String.mk ['A', 'B']), ("circuit", String.mk ['1', '2', '3'])],
        String.mk (['A', 'B'] ++ ['1', '2', '3'])⟩ :=
  c1_panel_amended ['A', 'B'] ['1', '2', '3'] (by decide) (by decide) (by decide)
    (by decide) (by decide) (by decide)

end PatternMatchers

/-! ## Generic ordered-dict association lists.

Python 3.7+ `dict`: insertion-ordered; assigning to an existing key replaces
the value in place, a new key is appended. -/

def insertAssoc {α β : Type} [BEq α] (k : α) (v : β) : List (α × β) → List (α × β)
  | [] => [(k, v)]
  | (k', v') :: t => if k' == k then (k', v) :: t else (k', v') :: insertAssoc k v t

def lookupAssoc {α β : Type} [BEq α] (l : List (α × β)) (k : α) : Option β :=
  match l with
  | [] => none
  | (k', v) :: t => if k' == k then some v else lookupAssoc t k

/-! ## Substring containment (Python `'EQX' in node`). -/

def startsWithC : List Char → List Char → Bool
  | [], _ => true
  | _ :: _, [] => false
  | a :: as, b :: bs => a == b && startsWithC as bs

def hasSubC (sub : List Char) : List Char → Bool
  | [] => startsWithC sub []
  | c :: t => startsWithC sub (c :: t) || hasSubC sub t

/-- Python `sub in s` on strings. -/
def strContains (s sub : String) : Bool := hasSubC sub.data s.data

/-! ## `core/broadcast/signal_flow.py` — `SignalFlowAnalyzer`

The analyzer owns a `networkx.DiGraph` plus three registries.  We embed the
graph as its node list (insertion-ordered, duplicate-free through the API),
the per-node attribute table written by `add_node` (`nx` auto-adds endpoint
nodes of `add_edge` with *no* attributes, so that table is written only by
`add_node`), and the insertion-ordered edge list keyed by (source, dest)
(a `DiGraph` has no parallel edges; re-adding a key updates its attributes).

Exceptions are explicit: `nx.all_simple_paths` raises `NodeNotFound` for a
missing endpoint and yields an *empty* sequence (it does not raise
`NetworkXNoPath`) when no path exists; `min` of an empty sequence raises
`ValueError`; a missing key in `self.nodes` raises `KeyError`.  The
`try/except nx.NetworkXNoPath` of `analyze_signal_chain` is embedded as a
handler for the `networkXNoPath` error alone. -/

namespace SignalFlow

inductive SignalFormat where
  | sdiSD | sdiHD | sdi3G | sdi12G | fiber | ip2110 | analog | aes | madi | dante
deriving DecidableEq, Repr

/-- The `.value` string of the Python `SignalFormat` enum member. -/
def SignalFormat.value : SignalFormat → String
  | .sdiSD => "SD-SDI"
  | .sdiHD => "HD-SDI"
  | .sdi3G => "3G-SDI"
  | .sdi12G => "12G-SDI"
  | .fiber => "Fiber"
  | .ip2110 => "SMPTE 2110"
  | .analog => "Analog"
  | .aes => "AES"
  | .madi => "MADI"
  | .dante => "Dante"

/-- `SignalNode` dataclass.  The free-form `attributes: Dict[str, any]` is
carried as string pairs (no claim inspects the values). -/
structure SignalNode where
  device_id : String
  device_type : String
  room : String
  rack : String
  connector : String
  signal_format : SignalFormat
  attributes : List (String × String) := []
deriving DecidableEq, Repr

/-- `SignalPath` dataclass. -/
structure SignalPath where
  source : SignalNode
  destination : SignalNode
  cable_id : Option String := none
  router_path : Option (List String) := none
  active : Bool := true
deriving DecidableEq, Repr

/-- The attributes `add_path` stores on a graph edge. -/
structure EdgeAttrs where
  cable_id : Option String
  router_path : Option (List String)
  active : Bool
deriving DecidableEq, Repr

/-- Observable state of a `SignalFlowAnalyzer` instance. -/
structure Analyzer where
  graphNodes : List String
  graphNodeAttrs : List (String × SignalNode)
  graphEdges : List ((String × String) × EdgeAttrs)
  nodes : List (String × SignalNode)
  paths : List (String × SignalPath)
  critical_paths : List String
deriving DecidableEq, Repr

def emptyAnalyzer : Analyzer := ⟨[], [], [], [], [], []⟩

/-- The identity key `f"{room}_{rack}_{device_id}"` used by both
`add_node` and `add_path`. -/
def nodeKey (n : SignalNode) : String := n.room ++ "_" ++ n.rack ++ "_" ++ n.device_id

/-- `nx` node insertion: appends a new node, leaves an existing one in place. -/
def addGraphNode (g : List String) (x : String) : List String :=
  if g.contains x then g else g ++ [x]

/-- `SignalFlowAnalyzer.add_node`: registers the node in `self.nodes` and in
the graph with all dataclass fields as attributes (re-adding the key
overwrites every attribute since the attribute key set is fixed). -/
def add_node (st : Analyzer) (n : SignalNode) : Analyzer :=
  let node_id := nodeKey n
  { st with
    nodes := insertAssoc node_id n st.nodes
    graphNodes := addGraphNode st.graphNodes node_id
    graphNodeAttrs := insertAssoc node_id n st.graphNodeAttrs }

/-- `SignalFlowAnalyzer.add_path`: `graph.add_edge(source_id, dest_id, ...)`
(which auto-adds missing endpoint nodes, with no node attributes) plus the
`self.paths` bookkeeping.  `self.nodes` is untouched. -/
def add_path (st : Analyzer) (p : SignalPath) : Analyzer :=
  let source_id := nodeKey p.source
  let dest_id := nodeKey p.destination
  { st with
    graphNodes := addGraphNode (addGraphNode st.graphNodes source_id) dest_id
    graphEdges := insertAssoc (source_id, dest_id)
      ⟨p.cable_id, p.router_path, p.active⟩ st.graphEdges
    paths := insertAssoc (source_id ++ "_to_" ++ dest_id) p st.paths }

def outDegree (st : Analyzer) (x : String) : Nat :=
  (st.graphEdges.filter (fun e => e.1.1 == x)).length

def inDegree (st : Analyzer) (x : String) : Nat :=
  (st.graphEdges.filter (fun e => e.1.2 == x)).length

/-- `graph.degree(x)` on a `DiGraph`: in-degree plus out-degree. -/
def totalDegree (st : Analyzer) (x : String) : Nat := inDegree st x + outDegree st x

/-- `{'node', 'in_connections', 'out_connections'}` entry of `find_bottlenecks`. -/
structure Bottleneck where
  node : String
  in_connections : Nat
  out_connections : Nat
deriving DecidableEq, Repr

/-- Loop body of `find_bottlenecks`: `if in_degree > 5 or out_degree > 5`. -/
def bottleneckCheck (st : Analyzer) (x : String) : Option Bottleneck :=
  let in_degree := inDegree st x
  let out_degree := outDegree st x
  if 5 < in_degree ∨ 5 < out_degree then some ⟨x, in_degree, out_degree⟩ else none

/-- `SignalFlowAnalyzer.find_bottlenecks`. -/
def find_bottlenecks (st : Analyzer) : List Bottleneck :=
  st.graphNodes.filterMap (bottleneckCheck st)

/-- Successors of a node in adjacency (edge-insertion) order. -/
def successors (st : Analyzer) (x : String) : List String :=
  (st.graphEdges.filter (fun e => e.1.1 == x)).map (fun e => e.1.2)

/-- Depth-first enumeration of the simple paths from `current` to `target`
that extend `sofar`, in adjacency order — the order `nx.all_simple_paths`
yields.  `fuel` bounds recursion depth; any value above the number of graph
nodes is exact since a simple path cannot repeat a node. -/
def simplePathsFrom (st : Analyzer) (target : String) :
    Nat → String → List String → List (List String)
  | 0, _, _ => []
  | fuel + 1, current, sofar =>
      if current == target then [sofar ++ [current]]
      else
        (successors st current).flatMap (fun nxt =>
          if (sofar ++ [current]).contains nxt then []
          else simplePathsFrom st target fuel nxt (sofar ++ [current]))

/-- The list `nx.all_simple_paths(graph, s, e)` yields once both endpoints
are known to be present (for `s = e` it yields nothing). -/
def pathEnum (st : Analyzer) (s e : String) : List (List String) :=
  if s == e then [] else simplePathsFrom st e (st.graphNodes.length + 1) s []

inductive PyErr where
  | nodeNotFound | networkXNoPath | keyError | valueError
deriving DecidableEq, Repr

/-- `list(nx.all_simple_paths(graph, s, e))`: `NodeNotFound` for an absent
endpoint, otherwise the (possibly empty) path list — never `NetworkXNoPath`. -/
def all_simple_paths (st : Analyzer) (s e : String) :
    Except PyErr (List (List String)) :=
  if !(st.graphNodes.contains s) then .error .nodeNotFound
  else if !(st.graphNodes.contains e) then .error .nodeNotFound
  else .ok (pathEnum st s e)

/-- One `{'point', 'from', 'to'}` conversion record. -/
structure Conversion where
  point : String
  from_fmt : String
  to_fmt : String
deriving DecidableEq, Repr

/-- `SignalFlowAnalyzer._analyze_format_conversions`: walks adjacent pairs,
looking each node id up in `self.nodes` — a missing id raises `KeyError`. -/
def analyzeFormatConversions (st : Analyzer) : List String → Except PyErr (List Conversion)
  | [] => .ok []
  | [_] => .ok []
  | a :: b :: rest =>
      match lookupAssoc st.nodes a, lookupAssoc st.nodes b with
      | some na, some nb => do
          let tail ← analyzeFormatConversions st (b :: rest)
          if na.signal_format ≠ nb.signal_format then
            .ok (⟨a, na.signal_format.value, nb.signal_format.value⟩ :: tail)
          else
            .ok tail
      | _, _ => .error .keyError

/-- `SignalFlowAnalyzer._count_router_hops`. -/
def countRouterHops (path : List String) : Nat :=
  (path.filter (fun n => strContains n "EQX" || strContains n "RTR")).length

/-- `SignalFlowAnalyzer._identify_critical_points`: a node is appended once
for being pre-flagged critical and (possibly again) for total degree 1. -/
def identifyCriticalPoints (st : Analyzer) (path : List String) : List String :=
  path.flatMap (fun n =>
    (if st.critical_paths.contains n then [n] else []) ++
    (if totalDegree st n == 1 then [n] else []))

/-- Per-path analysis dict of `analyze_signal_chain`. -/
structure PathAnalysis where
  path : List String
  length : Nat
  router_hops : Nat
  format_conversions : List Conversion
  critical_points : List String
deriving DecidableEq, Repr

def analyzePath (st : Analyzer) (p : List String) : Except PyErr PathAnalysis := do
  let convs ← analyzeFormatConversions st p
  .ok ⟨p, p.length - 1, countRouterHops p, convs, identifyCriticalPoints st p⟩

/-- Python `min(xs, key=lambda x: x.length)`: first strictly smaller wins. -/
def minByLength (h : PathAnalysis) (t : List PathAnalysis) : PathAnalysis :=
  t.foldl (fun best x => if x.length < best.length then x else best) h

structure ChainAnalysis where
  paths_found : Nat
  path_details : List PathAnalysis
  redundant_paths : Bool
  shortest_path : PathAnalysis
deriving DecidableEq, Repr

/-- Result of `analyze_signal_chain`: either the analysis dict or the
`{'error': 'No path found between specified nodes'}` dict produced by the
`except nx.NetworkXNoPath` handler. -/
inductive ChainResult where
  | ok (a : ChainAnalysis)
  | noPathResult
deriving DecidableEq, Repr

/-- The `for path in all_paths: path_analysis.append(...)` loop: analyses in
order, stopping at the first raised exception. -/
def mapExcept (f : List String → Except PyErr PathAnalysis) :
    List (List String) → Except PyErr (List PathAnalysis)
  | [] => .ok []
  | p :: t => do
      let a ← f p
      let rest ← mapExcept f t
      .ok (a :: rest)

/-- Body of the `try:` block of `analyze_signal_chain`. -/
def analyzeChainBody (st : Analyzer) (start_node end_node : String) :
    Except PyErr ChainAnalysis := do
  let all_paths ← all_simple_paths st start_node end_node
  let path_analysis ← mapExcept (analyzePath st) all_paths
  match path_analysis with
  | [] => .error .valueError
  | h :: t => .ok ⟨all_paths.length, h :: t, decide (1 < all_paths.length), minByLength h t⟩

/-- `SignalFlowAnalyzer.analyze_signal_chain`: the `try/except` catches only
`nx.NetworkXNoPath`, turning it into the structured no-path dict; every other
exception propagates. -/
def analyze_signal_chain (st : Analyzer) (start_node end_node : String) :
    Except PyErr ChainResult :=
  match analyzeChainBody st start_node end_node with
  | .ok a => .ok (.ok a)
  | .error .networkXNoPath => .ok .noPathResult
  | .error e => .error e

/-! ### Lemmas about the ordered-dict model -/

end SignalFlow

lemma insertAssoc_same {α β : Type} [BEq α] [LawfulBEq α] (k : α) (v w : β) :
    ∀ l, insertAssoc k w (insertAssoc k v l) = insertAssoc k w l := by
  intro l
  induction l with
  | nil => simp [insertAssoc]
  | cons kv t ih =>
      obtain ⟨k', v'⟩ := kv
      by_cases h : (k' == k) = true
      · simp [insertAssoc, h]
      · simp only [Bool.not_eq_true] at h
        simp [insertAssoc, h, ih]

lemma lookupAssoc_insertAssoc {α β : Type} [BEq α] [LawfulBEq α] (k : α) (v : β) :
    ∀ l, lookupAssoc (insertAssoc k v l) k = some v := by
  intro l
  induction l with
  | nil => simp [insertAssoc, lookupAssoc]
  | cons kv t ih =>
      obtain ⟨k', v'⟩ := kv
      by_cases h : (k' == k) = true
      · simp [insertAssoc, h, lookupAssoc]
      · simp only [Bool.not_eq_true] at h
        simp [insertAssoc, h, lookupAssoc, ih]

namespace SignalFlow

lemma addGraphNode_contains (g : List String) (x : String) :
    (addGraphNode g x).contains x = true := by
  rw [addGraphNode]
  split
  · assumption
  · simp

lemma addGraphNode_idem (g : List String) (x : String) :
    addGraphNode (addGraphNode g x) x = addGraphNode g x := by
  rw [addGraphNode, if_pos (addGraphNode_contains g x)]

/-- Adding a node whose key collides with an earlier one leaves the state as
if only the later node had been added: the key stays at its original position
with the new attributes (Python dict overwrite), the graph node set is
unchanged. -/
lemma add_node_override (st : Analyzer) (n n' : SignalNode) (h : nodeKey n' = nodeKey n) :
    add_node (add_node st n) n' = add_node st n' := by
  simp only [add_node, h, insertAssoc_same, addGraphNode_idem]

/-- C5: `add_node` is idempotent — adding the same `SignalNode` twice leaves
the whole observable state (node table, graph node set, graph attributes)
equal to adding it once — and re-adding a node whose identity key
`room_rack_deviceId` already exists replaces the stored attributes outright:
the state equals the one where only the later node was ever added, so the
lookup of the key yields the new node (last-write-wins, no merge). -/
theorem c5_add_node_idempotent_lww :
    (∀ (st : Analyzer) (n : SignalNode), add_node (add_node st n) n = add_node st n) ∧
    (∀ (st : Analyzer) (n n' : SignalNode), nodeKey n' = nodeKey n →
      add_node (add_node st n) n' = add_node st n' ∧
      lookupAssoc (add_node (add_node st n) n').nodes (nodeKey n') = some n' ∧
      lookupAssoc (add_node (add_node st n) n').graphNodeAttrs (nodeKey n') = some n') := by
  refine ⟨fun st n => add_node_override st n n rfl, fun st n n' h => ?_⟩
  refine ⟨add_node_override st n n' h, ?_, ?_⟩
  · rw [add_node_override st n n' h]
    exact lookupAssoc_insertAssoc _ _ _
  · rw [add_node_override st n n' h]
    exact lookupAssoc_insertAssoc _ _ _

/-- Concrete nodes used by the closed instances below. -/
def camNode : SignalNode := ⟨"CAM1", "camera", "R1", "RK1", "BNC", .sdiHD, []⟩

def camNodeAlt : SignalNode := ⟨"CAM1", "camera", "R1", "RK1", "FIBER", .fiber, []⟩

def monNode : SignalNode := ⟨"MON1", "monitor", "R1", "RK1", "BNC", .sdiHD, []⟩

/-- Witness for `c5_add_node_idempotent_lww`: the double-add of `camNode`
collapses, and re-adding the same key with different attributes
(`camNodeAlt`) stores the new attributes. -/
theorem c5_add_node_witness :
    add_node (add_node emptyAnalyzer camNode) camNode = add_node emptyAnalyzer camNode ∧
    lookupAssoc (add_node (add_node emptyAnalyzer camNode) camNodeAlt).nodes
      (nodeKey camNodeAlt) = some camNodeAlt :=
  ⟨c5_add_node_idempotent_lww.1 emptyAnalyzer camNode,
   (c5_add_node_idempotent_lww.2 emptyAnalyzer camNode camNodeAlt rfl).2.1⟩

/-- C6: `find_bottlenecks` flags exactly the graph nodes whose in-degree or
out-degree exceeds the threshold 5, and each flagged entry reports the node's
actual in-degree and out-degree. -/
theorem c6_find_bottlenecks_spec (st : Analyzer) (b : Bottleneck) :
    b ∈ find_bottlenecks st ↔
      (b.node ∈ st.graphNodes ∧ b.in_connections = inDegree st b.node ∧
       b.out_connections = outDegree st b.node ∧
       (5 < b.in_connections ∨ 5 < b.out_connections)) := by
  obtain ⟨bn, bin, bout⟩ := b
  rw [find_bottlenecks, List.mem_filterMap]
  constructor
  · rintro ⟨x, hx, hfx⟩
    rw [bottleneckCheck] at hfx
    split at hfx
    · rw [Option.some_inj] at hfx
      cases hfx
      exact ⟨hx, rfl, rfl, by assumption⟩
    · exact absurd hfx (by simp)
  · rintro ⟨hmem, h1, h2, h3⟩
    refine ⟨bn, hmem, ?_⟩
    rw [bottleneckCheck]
    rw [if_pos]
    · simp only [Option.some_inj]
      exact congrArg₂ (Bottleneck.mk bn) h1.symm h2.symm ▸ rfl
    · rw [h1, h2] at h3
      exact h3

/-- C2 state: both endpoints registered as graph nodes, zero edges. -/
def c2State : Analyzer := add_node (add_node emptyAnalyzer camNode) monNode

/-- C2: with both the start and the end node present in the graph and zero
paths between them, `analyze_signal_chain` does *not* return a structured
no-path result: `nx.all_simple_paths` yields an empty list (it never raises
the caught `NetworkXNoPath`), so `min(path_analysis, ...)` raises an uncaught
`ValueError`.  The claim (and the `except` clause's own intent) says a
structured no-path value should come back instead. -/
theorem c2_no_path_raises_value_error :
    c2State.graphNodes.contains "R1_RK1_CAM1" = true ∧
    c2State.graphNodes.contains "R1_RK1_MON1" = true ∧
    pathEnum c2State "R1_RK1_CAM1" "R1_RK1_MON1" = [] ∧
    analyze_signal_chain c2State "R1_RK1_CAM1" "R1_RK1_MON1" = .error .valueError :=
  ⟨rfl, rfl, rfl, rfl⟩

/-- If every node of `p` is registered in the node table, the
format-conversion walk of `p` cannot raise `KeyError`. -/
lemma analyzeFormatConversions_ok (st : Analyzer) :
    ∀ (p : List String), (∀ x ∈ p, (lookupAssoc st.nodes x).isSome = true) →
      ∃ l, analyzeFormatConversions st p = .ok l
  | [], _ => ⟨[], rfl⟩
  | [_], _ => ⟨[], rfl⟩
  | a :: b :: rest, h => by
      obtain ⟨na, hna⟩ := Option.isSome_iff_exists.mp (h a (by simp))
      obtain ⟨nb, hnb⟩ := Option.isSome_iff_exists.mp (h b (by simp))
      obtain ⟨tl, htl⟩ := analyzeFormatConversions_ok st (b :: rest)
        (fun x hx => h x (List.mem_cons_of_mem a hx))
      by_cases hne : na.signal_format ≠ nb.signal_format
      · exact ⟨⟨a, na.signal_format.value, nb.signal_format.value⟩ :: tl, by
          simp [analyzeFormatConversions, hna, hnb, htl, Bind.bind, Except.bind, hne]⟩
      · exact ⟨tl, by
          simp [analyzeFormatConversions, hna, hnb, htl, Bind.bind, Except.bind, hne]⟩

lemma mapExcept_analyzePath_ok (st : Analyzer) :
    ∀ (L : List (List String)),
      (∀ p ∈ L, ∀ x ∈ p, (lookupAssoc st.nodes x).isSome = true) →
      ∃ l, mapExcept (analyzePath st) L = .ok l := by
  intro L
  induction L with
  | nil => intro _; exact ⟨[], rfl⟩
  | cons p t ih =>
      intro h
      obtain ⟨cs, hcs⟩ := analyzeFormatConversions_ok st p (h p (by simp))
      obtain ⟨tl, htl⟩ := ih (fun q hq => h q (by simp [hq]))
      refine ⟨⟨p, p.length - 1, countRouterHops p, cs, identifyCriticalPoints st p⟩ :: tl, ?_⟩
      simp [mapExcept, analyzePath, hcs, htl, Bind.bind, Except.bind]

/-- A two-node, one-edge topology built with `add_path` alone: the endpoint
ids enter the graph but are never registered in `self.nodes`. -/
def devANode : SignalNode := ⟨"DEV1", "processor", "R2", "RKA", "BNC", .sdi3G, []⟩

def devBNode : SignalNode := ⟨"DEV2", "monitor", "R2", "RKB", "BNC", .sdiHD, []⟩

def c10Path : SignalPath := ⟨devANode, devBNode, some "CBL-1", none, true⟩

def c10UnregState : Analyzer := add_path emptyAnalyzer c10Path

def c10RegState : Analyzer := add_node (add_node c10UnregState devANode) devBNode

/-- C10: the format-conversion analysis of `analyze_signal_chain` looks every
path node up in `self.nodes`, which only `add_node` populates; under the
precondition that every node on every enumerated path is registered there,
the analysis cannot raise `KeyError`.  The precondition is necessary:
`add_path` leaves `self.nodes` untouched while adding both endpoint ids to
the graph, so on a topology built by `add_path` alone the same query raises
`KeyError`. -/
theorem c10_format_lookup_needs_add_node :
    (∀ (st : Analyzer) (s e : String),
        (∀ p ∈ pathEnum st s e, ∀ x ∈ p, (lookupAssoc st.nodes x).isSome = true) →
        analyze_signal_chain st s e ≠ .error .keyError) ∧
    (∀ (st : Analyzer) (p : SignalPath), (add_path st p).nodes = st.nodes) ∧
    c10UnregState.graphNodes = ["R2_RKA_DEV1", "R2_RKB_DEV2"] ∧
    c10UnregState.nodes = [] ∧
    analyze_signal_chain c10UnregState "R2_RKA_DEV1" "R2_RKB_DEV2" = .error .keyError := by
  refine ⟨?_, fun st p => rfl, rfl, rfl, rfl⟩
  intro st s e hpre
  have hbody : analyzeChainBody st s e ≠ .error .keyError := by
    rw [analyzeChainBody, all_simple_paths]
    cases h1 : st.graphNodes.contains s with
    | false => simp [Bind.bind, Except.bind]
    | true =>
        cases h2 : st.graphNodes.contains e with
        | false => simp [Bind.bind, Except.bind]
        | true =>
            obtain ⟨l, hl⟩ := mapExcept_analyzePath_ok st (pathEnum st s e) hpre
            cases l with
            | nil => simp [Bind.bind, Except.bind, hl]
            | cons a t => simp [Bind.bind, Except.bind, hl]
  rw [analyze_signal_chain]
  cases hb : analyzeChainBody st s e with
  | ok a => simp
  | error er =>
      cases er with
      | networkXNoPath => simp
      | keyError => exact absurd hb hbody
      | nodeNotFound => simp
      | valueError => simp

/-- Witness for `c10_format_lookup_needs_add_node`: after registering both
endpoints with `add_node`, the same chain query no longer raises `KeyError`. -/
theorem c10_registered_witness :
    analyze_signal_chain c10RegState "R2_RKA_DEV1" "R2_RKB_DEV2" ≠ .error .keyError :=
  c10_format_lookup_needs_add_node.1 c10RegState "R2_RKA_DEV1" "R2_RKB_DEV2" (by decide)

end SignalFlow

/-! ## `core/autocad/it_patterns.py` — `ITPatterns` and `ITDeviceAnalyzer`

`_compile_patterns` walks `vars(ITPatterns)` in class-declaration order —
`NETWORK_PATTERNS, SERVER_PATTERNS, BROADCAST_PATTERNS, DISPLAY_PATTERNS,
CONTROL_PATTERNS, NETWORK_ADDRESSING, LOCATION_PATTERNS` — compiling every
pattern with `re.IGNORECASE`.  `_identify_device_type` returns on the first
(category, pattern) pair whose compiled pattern `search`-matches, and
`_map_to_device_category` maps the five leading category names to their enum
members, defaulting every other category name to `PERIPHERAL`. -/

namespace ITPat

/-- The `DeviceCategory` enum. -/
inductive DeviceCategory where
  | network | server | storage | workstation | display | camera | audio
  | kvm | security | broadcast | control | peripheral
deriving DecidableEq, Repr

/-- Hex digit class `[0-9A-Fa-f]`. -/
def isHexC (c : Char) : Bool :=
  isDigitC c || (65 ≤ c.toNat && c.toNat ≤ 70) || (97 ≤ c.toNat && c.toNat ≤ 102)

/-- Character range class (case-sensitive). -/
def rcls (lo hi : Char) : Regex :=
  .cls (fun c => lo.toNat ≤ c.toNat && c.toNat ≤ hi.toNat)

/-- `[0-9]{2,3}` -/
def d23 : Regex := rrange rdigit 2 3

/-- `(?:-[A-Z])?` under `re.IGNORECASE`. -/
def optDashUpper : Regex := ropt (.seq (rchar '-') (.cls isAlphaCI))

/-- `ITPatterns.NETWORK_PATTERNS`. -/
def networkPats : List (String × Regex) :=
  [("switch", .seq (.alt (rlitsCI "SW") (rlitsCI "SWITCH")) (.seq d23 optDashUpper)),
   ("router", .seq (.alt (rlitsCI "RTR") (rlitsCI "ROUTER")) d23),
   ("firewall", .seq (.alt (rlitsCI "FW") (rlitsCI "FIREWALL")) d23),
   ("wireless_ap", .seq (.alt (rlitsCI "WAP") (rlitsCI "AP")) d23),
   ("patch_panel", .seq (.alt (rlitsCI "PP") (rlitsCI "PATCH"))
      (.seq d23 (ropt (.cls isAlphaCI))))]

/-- `ITPatterns.SERVER_PATTERNS`. -/
def serverPats : List (String × Regex) :=
  [("rack_server", .seq (.alt (rlitsCI "SRV") (rlitsCI "SERVER")) d23),
   ("blade", .seq (rlitsCI "BLADE") d23),
   ("storage", .seq (.alt (rlitsCI "STG") (.alt (rlitsCI "SAN") (rlitsCI "NAS"))) d23),
   ("backup", .seq (.alt (rlitsCI "BKP") (rlitsCI "BACKUP")) d23)]

/-- `ITPatterns.BROADCAST_PATTERNS`. -/
def broadcastPats : List (String × Regex) :=
  [("camera", .seq (.alt (rlitsCI "CAM") (rlitsCI "CAMERA")) (.seq d23 optDashUpper)),
   ("video_switcher", .seq (.alt (rlitsCI "VS") (rlitsCI "VSWITCH")) d23),
   ("encoder", .seq (.alt (rlitsCI "ENC") (rlitsCI "ENCODER")) d23),
   ("decoder", .seq (.alt (rlitsCI "DEC") (rlitsCI "DECODER")) d23),
   ("matrix", .seq (.alt (rlitsCI "MTX") (rlitsCI "MATRIX")) d23)]

/-- `ITPatterns.DISPLAY_PATTERNS`. -/
def displayPats : List (String × Regex) :=
  [("monitor", .seq (.alt (rlitsCI "MON") (rlitsCI "MONITOR")) d23),
   ("display", .seq (.alt (rlitsCI "DISP") (rlitsCI "DISPLAY")) d23),
   ("video_wall", .seq (.alt (rlitsCI "VW") (rlitsCI "VWALL")) d23),
   ("projector", .seq (.alt (rlitsCI "PROJ") (rlitsCI "PROJECTOR")) d23)]

/-- `ITPatterns.CONTROL_PATTERNS`. -/
def controlPats : List (String × Regex) :=
  [("controller", .seq (.alt (rlitsCI "CTRL") (rlitsCI "CONTROLLER")) d23),
   ("processor", .seq (.alt (rlitsCI "PROC") (rlitsCI "PROCESSOR")) d23),
   ("kvm", .seq (rlitsCI "KVM") (.seq d23 optDashUpper)),
   ("touchpanel", .seq (.alt (rlitsCI "TP") (rlitsCI "TOUCH")) d23)]

/-- One IPv4 octet alternation `25[0-5]|2[0-4][0-9]|[01]?[0-9][0-9]?`. -/
def octet : Regex :=
  .alt (.seq (rlits "25") (rcls '0' '5'))
    (.alt (.seq (rchar '2') (.seq (rcls '0' '4') rdigit))
      (.seq (ropt (rcls '0' '1')) (.seq rdigit (ropt rdigit))))

/-- `ip_address` pattern: three dotted octets then one octet. -/
def ipPat : Regex := .seq (rrep (.seq octet (rchar '.')) 3) octet

/-- `vlan` pattern `VLAN\s*[0-9]{1,4}`. -/
def vlanPat : Regex := .seq (rlitsCI "VLAN") (.seq (.star (.cls isSpaceC)) (rrange rdigit 1 4))

/-- `ITPatterns.NETWORK_ADDRESSING`. -/
def addressingPats : List (String × Regex) :=
  [("ip_address", ipPat),
   ("subnet_mask", .alt (.seq (rchar '/') (rrange rdigit 1 2))
      (.seq (rlits "255.") (.seq (rrep (.seq octet (rchar '.')) 2) octet))),
   ("vlan", vlanPat),
   ("mac_address", .seq (rrep (.seq (rrep (.cls isHexC) 2) (.cls (fun c => c == ':' || c == '-'))) 5)
      (rrep (.cls isHexC) 2))]

/-- `ITPatterns.LOCATION_PATTERNS`. -/
def locationPats : List (String × Regex) :=
  [("rack", .seq (.alt (rlitsCI "RACK") (rlitsCI "R")) (.seq d23 optDashUpper)),
   ("rack_position", .seq (rchci 'U') (rrange rdigit 1 2)),
   ("room", .seq (.alt (rlitsCI "RM") (rlitsCI "ROOM")) (.seq d23 (ropt (.cls isAlphaCI)))),
   ("data_center", .seq (rlitsCI "DC") (rrange rdigit 1 2))]

/-- `self.compiled_patterns` in `vars(ITPatterns)` declaration order. -/
def catalog : List (String × List (String × Regex)) :=
  [("NETWORK_PATTERNS", networkPats),
   ("SERVER_PATTERNS", serverPats),
   ("BROADCAST_PATTERNS", broadcastPats),
   ("DISPLAY_PATTERNS", displayPats),
   ("CONTROL_PATTERNS", controlPats),
   ("NETWORK_ADDRESSING", addressingPats),
   ("LOCATION_PATTERNS", locationPats)]

/-- `ITDeviceAnalyzer._map_to_device_category`: `dict.get` with
`PERIPHERAL` default. -/
def mapToDeviceCategory (pattern_category : String) : DeviceCategory :=
  if pattern_category == "NETWORK_PATTERNS" then .network
  else if pattern_category == "SERVER_PATTERNS" then .server
  else if pattern_category == "BROADCAST_PATTERNS" then .broadcast
  else if pattern_category == "DISPLAY_PATTERNS" then .display
  else if pattern_category == "CONTROL_PATTERNS" then .control
  else .peripheral

/-- First pattern of a category that `search`-matches, by name. -/
def firstMatch (t : List Char) : List (String × Regex) → Option String
  | [] => none
  | (nm, r) :: rest => if searchR r t then some nm else firstMatch t rest

/-- Inner loops of `_identify_device_type`: first (category, pattern) hit. -/
def identifyAux (t : List Char) :
    List (String × List (String × Regex)) → Option (String × String)
  | [] => none
  | (cat, pats) :: rest =>
      match firstMatch t pats with
      | some nm => some (cat, nm)
      | none => identifyAux t rest

/-- `ITDeviceAnalyzer._identify_device_type`. -/
def identifyDeviceType (text : String) : Option (DeviceCategory × String) :=
  (identifyAux text.data catalog).map (fun p => (mapToDeviceCategory p.1, p.2))

/-- Does some pattern of the category `search`-match the text? -/
def categoryHit (pats : List (String × Regex)) (text : String) : Bool :=
  pats.any (fun p => searchR p.2 text.data)

/-! ### Attribute extraction used by `analyze_device`.

`_extract_ip_address`/`_extract_vlan` need the *matched substring* of a
search, so a backtracking matcher over the same `Regex` AST is used:
`prefixMatches` lists the (matched, rest) splits in Python's backtracking
priority order (alternatives left to right, greedy repetition longest
first), and the scan takes the first split at the leftmost matching
position — exactly `re.search`'s leftmost, then backtracking-priority rule.
The `fuel` bounds `star` unrolling; since an iteration of a starred pattern
consumes at least one character (empty iterations are skipped, as in
Python), any fuel beyond the text length is exact. -/

def prefixMatches : Nat → Regex → List Char → List (List Char × List Char)
  | _, .eps, t => [([], t)]
  | _, .cls p, t =>
      match t with
      | [] => []
      | c :: r => if p c then [([c], r)] else []
  | fuel, .seq a b, t =>
      (prefixMatches fuel a t).flatMap (fun m1 =>
        (prefixMatches fuel b m1.2).map (fun m2 => (m1.1 ++ m2.1, m2.2)))
  | fuel, .alt a b, t => prefixMatches fuel a t ++ prefixMatches fuel b t
  | 0, .star _, t => [([], t)]
  | fuel + 1, .star a, t =>
      ((prefixMatches (fuel + 1) a t).filter (fun m => !m.1.isEmpty)).flatMap
        (fun m1 => (prefixMatches fuel (.star a) m1.2).map
          (fun m2 => (m1.1 ++ m2.1, m2.2))) ++ [([], t)]
  termination_by fuel r _ => (fuel, sizeOf r)

/-- Leftmost match of `r` in `t`, returning the matched substring
(`match.group(0)` of `re.search`). -/
def searchExtract (r : Regex) (t : List Char) : Option (List Char) :=
  match (prefixMatches (t.length + 1) r t).head? with
  | some m => some m.1
  | none =>
      match t with
      | [] => none
      | _ :: rest => searchExtract r rest

/-- `ITDeviceAnalyzer._extract_ip_address`. -/
def extractIpAddress (text : String) : Option String :=
  (searchExtract ipPat text.data).map String.mk

/-- First `[0-9]+` run of a character list (`re.search(r'[0-9]+', ...)`). -/
def firstDigitRun : List Char → Option (List Char)
  | [] => none
  | c :: t =>
      if isDigitC c then some (c :: (spanC isDigitC t).1)
      else firstDigitRun t

def natOfDigits (l : List Char) : Nat :=
  l.foldl (fun n c => n * 10 + (c.toNat - 48)) 0

/-- `ITDeviceAnalyzer._extract_vlan`: the matched `VLAN\s*[0-9]{1,4}` text,
then `int` of its first digit run. -/
def extractVlan (text : String) : Option Nat :=
  (searchExtract vlanPat text.data).bind (fun m => (firstDigitRun m).map natOfDigits)

/-- `[A-Z0-9-]` under `re.IGNORECASE`. -/
def isConnChar (c : Char) : Bool := isAlphaCI c || isDigitC c || c == '-'

/-- Case-insensitive literal prefix test returning the rest. -/
def dropLitCI : List Char → List Char → Option (List Char)
  | [], t => some t
  | _ :: _, [] => none
  | k :: ks, c :: cs => if ciIs c k then dropLitCI ks cs else none

/-- One attempt of `(?:TO|FROM|-->)\s*([A-Z0-9-]+)` at the current position:
alternatives in order, then greedy whitespace, then the mandatory capture. -/
def connAt (t : List Char) : Option (String × List Char) :=
  (dropLitCI "TO".data t).bind connTail |>.orElse
    (fun _ => (dropLitCI "FROM".data t).bind connTail |>.orElse
      (fun _ => (dropLitCI "-->".data t).bind connTail))
where
  connTail (r : List Char) : Option (String × List Char) :=
    let (_, r1) := spanC isSpaceC r
    let (cap, r2) := spanC isConnChar r1
    if cap.isEmpty then none else some (String.mk cap, r2)

/-- `re.finditer` scan of the connection pattern: leftmost matches,
non-overlapping, resuming after each match. -/
def extractConnsFuel : Nat → List Char → List String
  | 0, _ => []
  | fuel + 1, t =>
      match t with
      | [] => []
      | c :: rest =>
          match connAt (c :: rest) with
          | some (cap, r) => cap :: extractConnsFuel fuel r
          | none => extractConnsFuel fuel rest

/-- `ITDeviceAnalyzer._extract_connections`. -/
def extractConnections (text : String) : List String :=
  extractConnsFuel text.data.length text.data

/-- The `ITDevice` dataclass.  Coordinates are carried opaquely (no claim
computes with them), embedded as integer pairs. -/
structure ITDevice where
  id : String
  category : DeviceCategory
  make : Option String := none
  model : Option String := none
  rack_units : Nat := 1
  position : Int × Int := (0, 0)
  connections : List String := []
  ip_address : Option String := none
  subnet : Option String := none
  vlan : Option Nat := none
deriving DecidableEq, Repr

/-- `ITDeviceAnalyzer.analyze_device`: builds an `ITDevice` from the first
pattern hit, `None` when nothing matches.  (The `try/except` of the source
never fires: none of the modelled operations can raise.) -/
def analyze_device (text : String) (position : Int × Int) : Option ITDevice :=
  match identifyDeviceType text with
  | some (cat, _) =>
      some { id := text, category := cat, position := position,
             connections := extractConnections text,
             ip_address := extractIpAddress text,
             vlan := extractVlan text }
  | none => none

/-! ### C3 / C9: classification order and the PERIPHERAL fallback -/

lemma firstMatch_eq_none {t : List Char} {pats : List (String × Regex)}
    (h : pats.any (fun p => searchR p.2 t) = false) : firstMatch t pats = none := by
  induction pats with
  | nil => rfl
  | cons p rest ih =>
      obtain ⟨nm, r⟩ := p
      simp only [List.any_cons, Bool.or_eq_false_iff] at h
      simp only [firstMatch]
      rw [if_neg]
      · exact ih h.2
      · simp_all

lemma firstMatch_some_of_any {t : List Char} {pats : List (String × Regex)}
    (h : pats.any (fun p => searchR p.2 t) = true) : ∃ nm, firstMatch t pats = some nm := by
  induction pats with
  | nil => simp at h
  | cons p rest ih =>
      obtain ⟨nm, r⟩ := p
      by_cases hs : searchR r t = true
      · exact ⟨nm, by simp [firstMatch, hs]⟩
      · simp only [Bool.not_eq_true] at hs
        simp only [List.any_cons, hs, Bool.false_or] at h
        obtain ⟨nm', h'⟩ := ih h
        exact ⟨nm', by simp [firstMatch, hs, h']⟩

lemma analyze_device_of_hit {text : String} {cat : DeviceCategory} {nm : String}
    (pos : Int × Int) (hid : identifyDeviceType text = some (cat, nm)) :
    ∃ d, analyze_device text pos = some d ∧ d.id = text ∧ d.category = cat := by
  refine ⟨{ id := text, category := cat, position := pos,
            connections := extractConnections text,
            ip_address := extractIpAddress text,
            vlan := extractVlan text }, ?_, rfl, rfl⟩
  simp [analyze_device, hid]

/-- C3: `analyze_device` classifies a text by the first (category, pattern)
pair that matches, iterating categories in catalog declaration order —
network, server, broadcast, display, control (then addressing and location) —
so a text hitting the network category is classified `network` no matter what
later categories would match; and it returns no device at all exactly when
zero patterns of the whole catalog match. -/
theorem c3_first_pair_classification (text : String) (pos : Int × Int) :
    (categoryHit networkPats text = true →
        ∃ d, analyze_device text pos = some d ∧ d.id = text ∧
          d.category = DeviceCategory.network) ∧
    (categoryHit networkPats text = false → categoryHit serverPats text = true →
        ∃ d, analyze_device text pos = some d ∧ d.id = text ∧
          d.category = DeviceCategory.server) ∧
    (categoryHit networkPats text = false → categoryHit serverPats text = false →
     categoryHit broadcastPats text = true →
        ∃ d, analyze_device text pos = some d ∧ d.id = text ∧
          d.category = DeviceCategory.broadcast) ∧
    (categoryHit networkPats text = false → categoryHit serverPats text = false →
     categoryHit broadcastPats text = false → categoryHit displayPats text = true →
        ∃ d, analyze_device text pos = some d ∧ d.id = text ∧
          d.category = DeviceCategory.display) ∧
    (categoryHit networkPats text = false → categoryHit serverPats text = false →
     categoryHit broadcastPats text = false → categoryHit displayPats text = false →
     categoryHit controlPats text = true →
        ∃ d, analyze_device text pos = some d ∧ d.id = text ∧
          d.category = DeviceCategory.control) ∧
    ((∀ cat ∈ catalog, categoryHit cat.2 text = false) →
        analyze_device text pos = none) := by
  refine ⟨?_, ?_, ?_, ?_, ?_, ?_⟩
  · intro h1
    obtain ⟨nm, hnm⟩ := firstMatch_some_of_any h1
    have hid : identifyDeviceType text = some (.network, nm) := by
      simp [identifyDeviceType, identifyAux, catalog, hnm, mapToDeviceCategory]
    exact analyze_device_of_hit pos hid
  · intro h1 h2
    obtain ⟨nm, hnm⟩ := firstMatch_some_of_any h2
    have hid : identifyDeviceType text = some (.server, nm) := by
      simp [identifyDeviceType, identifyAux, catalog, firstMatch_eq_none h1, hnm,
        mapToDeviceCategory]
    exact analyze_device_of_hit pos hid
  · intro h1 h2 h3
    obtain ⟨nm, hnm⟩ := firstMatch_some_of_any h3
    have hid : identifyDeviceType text = some (.broadcast, nm) := by
      simp [identifyDeviceType, identifyAux, catalog, firstMatch_eq_none h1,
        firstMatch_eq_none h2, hnm, mapToDeviceCategory]
    exact analyze_device_of_hit pos hid
  · intro h1 h2 h3 h4
    obtain ⟨nm, hnm⟩ := firstMatch_some_of_any h4
    have hid : identifyDeviceType text = some (.display, nm) := by
      simp [identifyDeviceType, identifyAux, catalog, firstMatch_eq_none h1,
        firstMatch_eq_none h2, firstMatch_eq_none h3, hnm, mapToDeviceCategory]
    exact analyze_device_of_hit pos hid
  · intro h1 h2 h3 h4 h5
    obtain ⟨nm, hnm⟩ := firstMatch_some_of_any h5
    have hid : identifyDeviceType text = some (.control, nm) := by
      simp [identifyDeviceType, identifyAux, catalog, firstMatch_eq_none h1,
        firstMatch_eq_none h2, firstMatch_eq_none h3, firstMatch_eq_none h4, hnm,
        mapToDeviceCategory]
    exact analyze_device_of_hit pos hid
  · intro hall
    have e1 : firstMatch text.data networkPats = none :=
      firstMatch_eq_none (hall ("NETWORK_PATTERNS", networkPats) (by simp [catalog]))
    have e2 : firstMatch text.data serverPats = none :=
      firstMatch_eq_none (hall ("SERVER_PATTERNS", serverPats) (by simp [catalog]))
    have e3 : firstMatch text.data broadcastPats = none :=
      firstMatch_eq_none (hall ("BROADCAST_PATTERNS", broadcastPats) (by simp [catalog]))
    have e4 : firstMatch text.data displayPats = none :=
      firstMatch_eq_none (hall ("DISPLAY_PATTERNS", displayPats) (by simp [catalog]))
    have e5 : firstMatch text.data controlPats = none :=
      firstMatch_eq_none (hall ("CONTROL_PATTERNS", controlPats) (by simp [catalog]))
    have e6 : firstMatch text.data addressingPats = none :=
      firstMatch_eq_none (hall ("NETWORK_ADDRESSING", addressingPats) (by simp [catalog]))
    have e7 : firstMatch text.data locationPats = none :=
      firstMatch_eq_none (hall ("LOCATION_PATTERNS", locationPats) (by simp [catalog]))
    have hid : identifyDeviceType text = none := by
      simp [identifyDeviceType, identifyAux, catalog, e1, e2, e3, e4, e5, e6, e7]
    simp [analyze_device, hid]

/-- Witness for `c3_first_pair_classification`: `"SW01 CAM01"` matches both a
network pattern (`switch`) and a broadcast pattern (`camera`) and is
classified `network`. -/
theorem c3_classification_witness :
    categoryHit broadcastPats "SW01 CAM01" = true ∧
    ∃ d, analyze_device "SW01 CAM01" (0, 0) = some d ∧ d.id = "SW01 CAM01" ∧
      d.category = DeviceCategory.network :=
  ⟨by decide, (c3_first_pair_classification "SW01 CAM01" (0, 0)).1 (by decide)⟩

/-- C9: when no pattern of the five mapped categories (network, server,
broadcast, display, control) matches but a network-addressing or location
pattern does, `analyze_device` still returns a device, and
`_map_to_device_category`'s `dict.get` default makes its category
`PERIPHERAL` — absence of a mapped category does not mean absence of a
device. -/
theorem c9_peripheral_fallback (text : String) (pos : Int × Int)
    (hn : categoryHit networkPats text = false) (hs : categoryHit serverPats text = false)
    (hb : categoryHit broadcastPats text = false) (hd : categoryHit displayPats text = false)
    (hc : categoryHit controlPats text = false)
    (hrest : categoryHit addressingPats text = true ∨ categoryHit locationPats text = true) :
    ∃ d, analyze_device text pos = some d ∧ d.category = DeviceCategory.peripheral := by
  by_cases ha : categoryHit addressingPats text = true
  · obtain ⟨nm, hnm⟩ := firstMatch_some_of_any ha
    have hid : identifyDeviceType text = some (.peripheral, nm) := by
      simp [identifyDeviceType, identifyAux, catalog, firstMatch_eq_none hn,
        firstMatch_eq_none hs, firstMatch_eq_none hb, firstMatch_eq_none hd,
        firstMatch_eq_none hc, hnm, mapToDeviceCategory]
    obtain ⟨d, hd1, _, hd3⟩ := analyze_device_of_hit pos hid
    exact ⟨d, hd1, hd3⟩
  · simp only [Bool.not_eq_true] at ha
    have hl : categoryHit locationPats text = true := by
      rcases hrest with h | h
      · exact absurd h (by simp [ha])
      · exact h
    obtain ⟨nm, hnm⟩ := firstMatch_some_of_any hl
    have hid : identifyDeviceType text = some (.peripheral, nm) := by
      simp [identifyDeviceType, identifyAux, catalog, firstMatch_eq_none hn,
        firstMatch_eq_none hs, firstMatch_eq_none hb, firstMatch_eq_none hd,
        firstMatch_eq_none hc, firstMatch_eq_none ha, hnm, mapToDeviceCategory]
    obtain ⟨d, hd1, _, hd3⟩ := analyze_device_of_hit pos hid
    exact ⟨d, hd1, hd3⟩

/-- Witness for `c9_peripheral_fallback` at the rack-position token `"U42"`. -/
theorem c9_peripheral_witness :
    ∃ d, analyze_device "U42" (0, 0) = some d ∧ d.category = DeviceCategory.peripheral :=
  c9_peripheral_fallback "U42" (0, 0) (by decide) (by decide) (by decide) (by decide)
    (by decide) (Or.inr (by decide))

end ITPat

/-! ## `core/broadcast/router_config.py` — `EQXRouter`

NOTE: as written the module cannot even be imported: the `RouterCard`
dataclass places the non-default field `port_type` after defaulted fields,
which raises `TypeError: non-default argument 'port_type' follows default
argument` at class-creation time.  The embedding models the evident intent
(the same class with a legal field order), which changes no behaviour of the
functions below. -/

namespace RouterConfig

/-- The `SignalType` enum of `router_config.py` (distinct from the one in
`broadcast_types.py`). -/
inductive SignalType where
  | black | bars | camera | playback | web | directv | prompt | delay | open
deriving DecidableEq, Repr

/-- `.value` strings of the enum members. -/
def SignalType.value : SignalType → String
  | .black => "BLACK"
  | .bars => "BARS_AND_TONE"
  | .camera => "CAM"
  | .playback => "PLAYBACK"
  | .web => "WEB"
  | .directv => "DIRECTV"
  | .prompt => "PROMPT"
  | .delay => "DELAY"
  | .open => "OPEN"

inductive RouterPortType where
  | input | output
deriving DecidableEq, Repr

structure RouterPort where
  index : Int
  name : String
  port_number : Int
  card_number : Int
  signal_type : SignalType
  attributes : List (String × String) := []
deriving DecidableEq, Repr

structure RouterCard where
  card_number : Int
  port_count : Nat := 18
  ports : List (Int × RouterPort) := []
  port_type : RouterPortType
  card_model : String := ""
deriving DecidableEq, Repr

structure EQXRouter where
  router_id : String
  input_cards : List (Int × RouterCard) := []
  output_cards : List (Int × RouterCard) := []
deriving DecidableEq, Repr

/-! The `self.signal_patterns` dict, in insertion order
CAMERA, PLAYBACK, WEB, PROMPT, DELAY, BLACK, BARS, OPEN; each entry is the
`re.search` (case-sensitive, no flags) of its pattern.  A top-level
alternation containing `$`-anchored branches searches each branch on its
own; `^p$` branches match the whole string (with Python's optional final
newline for `$`). -/

/-- `CAM-\d+_ST$|CAM-.*Flash.*|CAM-Chroma` -/
def camSearch (t : List Char) : Bool :=
  searchEnd (.seq (rlits "CAM-") (.seq (rplus rdigit) (rlits "_ST"))) t ||
  searchR (.seq (rlits "CAM-") (.seq (.star rdot) (.seq (rlits "Flash") (.star rdot)))) t ||
  searchR (rlits "CAM-Chroma") t

/-- `PLAYBACK-\d+_B\d-\d+` -/
def playbackSearch (t : List Char) : Bool :=
  searchR (.seq (rlits "PLAYBACK-") (.seq (rplus rdigit)
    (.seq (rlits "_B") (.seq rdigit (.seq (rchar '-') (rplus rdigit)))))) t

/-- `PC-[A-Z]_WEB|MAC-Shared_WEB` -/
def webSearch (t : List Char) : Bool :=
  searchR (.seq (rlits "PC-") (.seq (.cls isUpperC) (rlits "_WEB"))) t ||
  searchR (rlits "MAC-Shared_WEB") t

/-- `PROMPT-[AB]` -/
def promptSearch (t : List Char) : Bool :=
  searchR (.seq (rlits "PROMPT-") (.cls (fun c => c == 'A' || c == 'B'))) t

/-- `DelayQuad_MV` -/
def delaySearch (t : List Char) : Bool := searchR (rlits "DelayQuad_MV") t

/-- `^BLACK$` -/
def blackSearch (t : List Char) : Bool := matchFull (rlits "BLACK") t

/-- `^BARS AND TONE$` -/
def barsSearch (t : List Char) : Bool := matchFull (rlits "BARS AND TONE") t

/-- `^OPEN_\d+$` -/
def openSearch (t : List Char) : Bool := matchFull (.seq (rlits "OPEN_") (rplus rdigit)) t

/-- `self.signal_patterns` in dict insertion order. -/
def signal_patterns : List (SignalType × (List Char → Bool)) :=
  [(.camera, camSearch), (.playback, playbackSearch), (.web, webSearch),
   (.prompt, promptSearch), (.delay, delaySearch), (.black, blackSearch),
   (.bars, barsSearch), (.open, openSearch)]

/-- The `for signal_type, pattern in self.signal_patterns.items()` loop. -/
def firstSignal (t : List Char) : List (SignalType × (List Char → Bool)) → SignalType
  | [] => .open
  | (ty, f) :: rest => if f t then ty else firstSignal t rest

/-- `EQXRouter._determine_signal_type`. -/
def determineSignalType (name : String) : SignalType :=
  firstSignal name.data signal_patterns

/-- `self.input_cards[card_number].ports[port_number] = port`. -/
def updatePorts (cards : List (Int × RouterCard)) (cn pn : Int) (port : RouterPort) :
    List (Int × RouterCard) :=
  cards.map (fun kv =>
    if kv.1 == cn then (kv.1, { kv.2 with ports := insertAssoc pn port kv.2.ports }) else kv)

/-- `EQXRouter.add_input_port`: creates the card on first use (18 ports,
INPUT), classifies the port name, stores the port under its port number. -/
def add_input_port (r : EQXRouter) (card_number port_index : Int)
    (name : String) (port_number : Int) : EQXRouter × RouterPort :=
  let cards :=
    match lookupAssoc r.input_cards card_number with
    | some _ => r.input_cards
    | none => insertAssoc card_number
        { card_number := card_number, port_type := .input } r.input_cards
  let port : RouterPort :=
    { index := port_index, name := name, port_number := port_number,
      card_number := card_number, signal_type := determineSignalType name }
  ({ r with input_cards := updatePorts cards card_number port_number port }, port)

/-- One step of `signal_counts[t] = signal_counts.get(t, 0) + 1`. -/
def countStep (acc : List (String × Nat)) (kv : Int × RouterPort) : List (String × Nat) :=
  match lookupAssoc acc kv.2.signal_type.value with
  | some n => insertAssoc kv.2.signal_type.value (n + 1) acc
  | none => insertAssoc kv.2.signal_type.value 1 acc

/-- The running `signal_counts` loop over `card.ports.values()`. -/
def signalCounts (ports : List (Int × RouterPort)) : List (String × Nat) :=
  ports.foldl countStep []

inductive RouterErr where
  | valueError
deriving DecidableEq, Repr

/-- The utilization dict.  `available_ports` is a Python `int` subtraction
and may go negative, hence `Int`. -/
structure Utilization where
  total_ports : Nat
  used_ports : Nat
  available_ports : Int
  signal_counts : List (String × Nat)
deriving DecidableEq, Repr

/-- `EQXRouter.get_card_utilization`: `ValueError` for an unknown (input)
card, otherwise the aggregation over the card's port mapping. -/
def get_card_utilization (r : EQXRouter) (card_number : Int) :
    Except RouterErr Utilization :=
  match lookupAssoc r.input_cards card_number with
  | none => .error .valueError
  | some card =>
      .ok { total_ports := card.port_count, used_ports := card.ports.length,
            available_ports := (card.port_count : Int) - (card.ports.length : Int),
            signal_counts := signalCounts card.ports }

end RouterConfig

lemma lookupAssoc_insertAssoc_ne {α β : Type} [BEq α] [LawfulBEq α] {k k' : α} (v : β)
    (h : (k == k') = false) :
    ∀ l : List (α × β), lookupAssoc (insertAssoc k v l) k' = lookupAssoc l k'
  | [] => by simp [insertAssoc, lookupAssoc, h]
  | (k0, v0) :: t => by
      by_cases h0 : (k0 == k) = true
      · have hk : k0 = k := eq_of_beq h0
        subst hk
        simp [insertAssoc, lookupAssoc, h]
      · simp only [Bool.not_eq_true] at h0
        simp [insertAssoc, lookupAssoc, h0, lookupAssoc_insertAssoc_ne v h t]

namespace RouterConfig

lemma countStep_lookup (acc : List (String × Nat)) (kv : Int × RouterPort) (key : String) :
    (lookupAssoc (countStep acc kv) key).getD 0 =
      (lookupAssoc acc key).getD 0 + (if kv.2.signal_type.value == key then 1 else 0) := by
  by_cases hk : (kv.2.signal_type.value == key) = true
  · have hkeq : kv.2.signal_type.value = key := eq_of_beq hk
    rw [countStep]
    cases hacc : lookupAssoc acc kv.2.signal_type.value with
    | some n => simp [hkeq ▸ hacc, lookupAssoc_insertAssoc, hkeq, hk]
    | none => simp [hkeq ▸ hacc, lookupAssoc_insertAssoc, hkeq, hk]
  · simp only [Bool.not_eq_true] at hk
    rw [countStep]
    cases hacc : lookupAssoc acc kv.2.signal_type.value with
    | some n => simp [lookupAssoc_insertAssoc_ne _ hk, hk]
    | none => simp [lookupAssoc_insertAssoc_ne _ hk, hk]

lemma signalCounts_aux (key : String) :
    ∀ (ports : List (Int × RouterPort)) (acc : List (String × Nat)),
      (lookupAssoc (ports.foldl countStep acc) key).getD 0 =
        (lookupAssoc acc key).getD 0 +
          (ports.filter (fun kv => kv.2.signal_type.value == key)).length := by
  intro ports
  induction ports with
  | nil => intro acc; simp
  | cons kv t ih =>
      intro acc
      rw [List.foldl_cons, ih (countStep acc kv), countStep_lookup]
      by_cases hk : (kv.2.signal_type.value == key) = true
      · simp [List.filter_cons, hk]
        omega
      · simp only [Bool.not_eq_true] at hk
        simp [List.filter_cons, hk]

/-- Histogram correctness: the `signal_counts` entry of a value string counts
exactly the ports carrying that signal-type value. -/
lemma signalCounts_lookup (ports : List (Int × RouterPort)) (key : String) :
    (lookupAssoc (signalCounts ports) key).getD 0 =
      (ports.filter (fun kv => kv.2.signal_type.value == key)).length := by
  rw [signalCounts, signalCounts_aux key ports []]
  simp [lookupAssoc]

lemma value_beq (a b : SignalType) : (a.value == b.value) = (a == b) := by
  cases a <;> cases b <;> decide

lemma lookupAssoc_updatePorts (cn pn : Int) (port : RouterPort) :
    ∀ cards : List (Int × RouterCard),
      lookupAssoc (updatePorts cards cn pn port) cn =
        (lookupAssoc cards cn).map
          (fun c => { c with ports := insertAssoc pn port c.ports })
  | [] => rfl
  | (k0, c0) :: t => by
      have ih := lookupAssoc_updatePorts cn pn port t
      rw [updatePorts] at ih
      rw [updatePorts, List.map_cons]
      dsimp only
      by_cases h0 : (k0 == cn) = true
      · rw [if_pos h0]
        simp [lookupAssoc, h0]
      · rw [if_neg h0]
        simp only [lookupAssoc, if_neg h0]
        exact ih

/-- C7: `_determine_signal_type` tries the ordered pattern list camera,
playback, web, prompt, delay, black, bars, open, returns the first match and
defaults to `OPEN`; `get_card_utilization` on a registered input card
reports the card's `port_count` (18 for cards created by `add_input_port`),
`used = len(ports)`, `available = total - used`, and a histogram whose entry
for each signal type counts exactly that card's ports of the type.
(The claim is about this module's evident intent: as written the module
raises `TypeError` at import because of the `RouterCard` dataclass field
order, so none of these functions can ever run — see the result record.) -/
theorem c7_signal_type_and_utilization :
    (∀ name : String,
      (camSearch name.data = true → determineSignalType name = .camera) ∧
      (camSearch name.data = false → playbackSearch name.data = true →
        determineSignalType name = .playback) ∧
      (camSearch name.data = false → playbackSearch name.data = false →
        webSearch name.data = true → determineSignalType name = .web) ∧
      (camSearch name.data = false → playbackSearch name.data = false →
        webSearch name.data = false → promptSearch name.data = true →
        determineSignalType name = .prompt) ∧
      (camSearch name.data = false → playbackSearch name.data = false →
        webSearch name.data = false → promptSearch name.data = false →
        delaySearch name.data = true → determineSignalType name = .delay) ∧
      (camSearch name.data = false → playbackSearch name.data = false →
        webSearch name.data = false → promptSearch name.data = false →
        delaySearch name.data = false → blackSearch name.data = true →
        determineSignalType name = .black) ∧
      (camSearch name.data = false → playbackSearch name.data = false →
        webSearch name.data = false → promptSearch name.data = false →
        delaySearch name.data = false → blackSearch name.data = false →
        barsSearch name.data = true → determineSignalType name = .bars) ∧
      (camSearch name.data = false → playbackSearch name.data = false →
        webSearch name.data = false → promptSearch name.data = false →
        delaySearch name.data = false → blackSearch name.data = false →
        barsSearch name.data = false → determineSignalType name = .open)) ∧
    (∀ (r : EQXRouter) (cn : Int) (card : RouterCard),
      lookupAssoc r.input_cards cn = some card →
      get_card_utilization r cn =
        .ok { total_ports := card.port_count, used_ports := card.ports.length,
              available_ports := (card.port_count : Int) - (card.ports.length : Int),
              signal_counts := signalCounts card.ports } ∧
      ∀ ty : SignalType,
        (lookupAssoc (signalCounts card.ports) ty.value).getD 0 =
          (card.ports.filter (fun kv => kv.2.signal_type == ty)).length) ∧
    (∀ (r : EQXRouter) (cn pi : Int) (nm : String) (pn : Int),
      lookupAssoc r.input_cards cn = none →
      lookupAssoc (add_input_port r cn pi nm pn).1.input_cards cn =
        some { card_number := cn, port_count := 18,
               ports := [(pn, { index := pi, name := nm, port_number := pn,
                                card_number := cn,
                                signal_type := determineSignalType nm })],
               port_type := .input, card_model := "" }) := by
  refine ⟨?_, ?_, ?_⟩
  · intro name
    refine ⟨?_, ?_, ?_, ?_, ?_, ?_, ?_, ?_⟩ <;>
      intros <;> simp_all [determineSignalType, signal_patterns, firstSignal]
  · intro r cn card hcard
    constructor
    · rw [get_card_utilization, hcard]
    · intro ty
      rw [signalCounts_lookup]
      congr 1
      exact List.filter_congr (fun kv _ => value_beq kv.2.signal_type ty)
  · intro r cn pi nm pn hnone
    rw [add_input_port]
    simp only [hnone]
    rw [lookupAssoc_updatePorts, lookupAssoc_insertAssoc]
    rfl

/-- Concrete router for the witness: one input card holding a camera port
and a black port. -/
def demoRouter : EQXRouter :=
  (add_input_port (add_input_port ⟨"EQX1", [], []⟩ 1 0 "CAM-12_ST" 1).1 1 1 "BLACK" 2).1

def demoCard : RouterCard :=
  ⟨1, 18, [(1, ⟨0, "CAM-12_ST", 1, 1, .camera, []⟩), (2, ⟨1, "BLACK", 2, 1, .black, []⟩)],
   .input, ""⟩

/-- Witness for `c7_signal_type_and_utilization` on `demoRouter`. -/
theorem c7_utilization_witness :
    determineSignalType "CAM-12_ST" = SignalType.camera ∧
    get_card_utilization demoRouter 1 =
      .ok { total_ports := 18, used_ports := 2, available_ports := 16,
            signal_counts := [("CAM", 1), ("BLACK", 1)] } := by
  constructor
  · exact (c7_signal_type_and_utilization.1 "CAM-12_ST").1 (by decide)
  · exact ((c7_signal_type_and_utilization.2.1 demoRouter 1 demoCard (by decide)).1).trans
      (by rfl)

end RouterConfig

/-! ## `core/autocad/broadcast_types.py` (`SignalFlowAnalyzer.parse_connection`)
and `core/autocad/connection_processor.py` (`ConnectionProcessor`)

NOTE: `connection_processor.py` never imports `SignalConnection` or
`SignalFlowAnalyzer`, so importing it raises `NameError` while evaluating the
method annotation `Dict[str, List[SignalConnection]]`, and instantiating
`ConnectionProcessor` would raise `NameError` on `SignalFlowAnalyzer()`.
The embedding models the evident intent: the processor uses
`broadcast_types.SignalFlowAnalyzer.parse_connection` and its
`SignalConnection`; nothing else changes.

All regexes here are applied without flags (case-sensitive):
  acuity : `(?P<device>T[HK][0-9]+)\s*(?P<port>PC[23])\s*ACUITY\s*OUT-(?P<output>[A-Z][0-9])`  (`re.match`)
  rsw    : `RSW-(?P<number>[0-9]+)`                                       (`re.search`)
  mda/mdb/mdc : `(?P<device>T[HK][0-9]+)\s*-\s*MD(A|B|C)-(?P<unit>[0-9]-[0-9]+)` (`re.search`)
In every one of them the greedy runs (`[0-9]+`, `\s*`) are followed by
characters outside their class, so no backtracking branch is needed. -/

namespace ConnProc

/-- The `SignalConnection` dataclass. -/
structure SignalConnection where
  number : String
  drawing : String
  origin : String
  destination : String
  alternate_drawing : String
  wire_type : String
  notes : String
  origin_device : String
  origin_port : String
  dest_device : String
  dest_port : String
  rsw_number : String
deriving DecidableEq, Repr

/-- Case-sensitive literal prefix drop. -/
def dropLit : List Char → List Char → Option (List Char)
  | [], t => some t
  | _ :: _, [] => none
  | k :: ks, c :: cs => if c == k then dropLit ks cs else none

/-- `re.match` of the acuity pattern against the origin string: on success
the `device` (`T[HK][0-9]+`) and `port` (`PC[23]`) groups. -/
def acuityMatch (s : List Char) : Option (String × String) :=
  match s with
  | 'T' :: hk :: rest =>
      if hk == 'H' || hk == 'K' then
        let (ds, r1) := spanC isDigitC rest
        if ds.isEmpty then none
        else
          let (_, r2) := spanC isSpaceC r1
          match r2 with
          | 'P' :: 'C' :: d :: r3 =>
              if d == '2' || d == '3' then
                let (_, r4) := spanC isSpaceC r3
                match dropLit "ACUITY".data r4 with
                | none => none
                | some r5 =>
                    let (_, r6) := spanC isSpaceC r5
                    match dropLit "OUT-".data r6 with
                    | none => none
                    | some r7 =>
                        match r7 with
                        | u :: dg :: _ =>
                            if isUpperC u && isDigitC dg then
                              some (String.mk ('T' :: hk :: ds), String.mk ['P', 'C', d])
                            else none
                        | _ => none
              else none
          | _ => none
      else none
  | _ => none

/-- `destination.split('-', 1)`: the part before the first `'-'` and the
rest, when a dash exists. -/
def splitFirstDash : List Char → Option (List Char × List Char)
  | [] => none
  | '-' :: t => some ([], t)
  | c :: t => (splitFirstDash t).map (fun p => (c :: p.1, p.2))

/-- Python `str.strip()` (ASCII whitespace). -/
def stripC (s : List Char) : List Char :=
  ((s.dropWhile isSpaceC).reverse.dropWhile isSpaceC).reverse

/-- `re.search(r'RSW-(?P<number>[0-9]+)', s)`: leftmost occurrence, whole
matched text `group(0)`. -/
def rswSearch : List Char → Option String
  | [] => none
  | c :: t =>
      match dropLit "RSW-".data (c :: t) with
      | some r =>
          let (ds, _) := spanC isDigitC r
          if ds.isEmpty then rswSearch t else some (String.mk ("RSW-".data ++ ds))
      | none => rswSearch t

/-- The `mda`/`mdb`/`mdc` pattern at the current position (`x` is the third
letter); returns the `unit` group `[0-9]-[0-9]+`. -/
def mdAt (x : Char) (s : List Char) : Option String :=
  match s with
  | 'T' :: hk :: rest =>
      if hk == 'H' || hk == 'K' then
        let (ds, r1) := spanC isDigitC rest
        if ds.isEmpty then none
        else
          let (_, r2) := spanC isSpaceC r1
          match r2 with
          | '-' :: r3 =>
              let (_, r4) := spanC isSpaceC r3
              match dropLit ['M', 'D', x, '-'] r4 with
              | none => none
              | some r5 =>
                  match r5 with
                  | d1 :: '-' :: r6 =>
                      if isDigitC d1 then
                        let (ds2, _) := spanC isDigitC r6
                        if ds2.isEmpty then none
                        else some (String.mk (d1 :: '-' :: ds2))
                      else none
                  | _ => none
          | _ => none
      else none
  | _ => none

/-- `re.search` scan of the `mda`/`mdb`/`mdc` pattern. -/
def mdSearch (x : Char) : List Char → Option String
  | [] => none
  | c :: t =>
      match mdAt x (c :: t) with
      | some unit => some unit
      | none => mdSearch x t

/-- `SignalFlowAnalyzer.parse_connection` (`broadcast_types.py`). -/
def parse_connection (row : List (String × String)) : SignalConnection :=
  let get (k : String) : String := (lookupAssoc row k).getD ""
  let origin := get "ORIGIN"
  let destination := get "DEST"
  let base : SignalConnection :=
    ⟨get "NUMBER", get "DWG", origin, destination, get "Alternate Dwg",
     get "Wire Type", get "Notes", "", "", "", "", ""⟩
  let c1 :=
    match acuityMatch origin.data with
    | some dp => { base with origin_device := dp.1, origin_port := dp.2 }
    | none => base
  match splitFirstDash destination.data with
  | none => c1
  | some bp =>
      let c2 := { c1 with dest_device := String.mk (stripC bp.1) }
      let c3 :=
        match rswSearch destination.data with
        | some r => { c2 with rsw_number := r }
        | none => c2
      match mdSearch 'A' destination.data with
      | some unit => { c3 with dest_port := "MDA-" ++ unit }
      | none =>
          match mdSearch 'B' destination.data with
          | some unit => { c3 with dest_port := "MDB-" ++ unit }
          | none =>
              match mdSearch 'C' destination.data with
              | some unit => { c3 with dest_port := "MDC-" ++ unit }
              | none => c3

/-- `connections_by_device.setdefault`-style append used by
`process_connection_data`. -/
def addConn (m : List (String × List SignalConnection)) (k : String)
    (c : SignalConnection) : List (String × List SignalConnection) :=
  match lookupAssoc m k with
  | some l => insertAssoc k (l ++ [c]) m
  | none => insertAssoc k [c] m

/-- Loop body of `process_connection_data` for one row: group under the
origin device if non-empty, then under the destination device if non-empty. -/
def processStep (m : List (String × List SignalConnection))
    (row : List (String × String)) : List (String × List SignalConnection) :=
  let c := parse_connection row
  let m1 := if c.origin_device ≠ "" then addConn m c.origin_device c else m
  if c.dest_device ≠ "" then addConn m1 c.dest_device c else m1

/-- `ConnectionProcessor.process_connection_data`. -/
def process_connection_data (rows : List (List (String × String))) :
    List (String × List SignalConnection) :=
  rows.foldl processStep []

/-- The connection list stored under a device (empty when absent). -/
def groupOf (m : List (String × List SignalConnection)) (k : String) :
    List SignalConnection :=
  (lookupAssoc m k).getD []

lemma groupOf_addConn_self (m : List (String × List SignalConnection)) (k : String)
    (c' : SignalConnection) : groupOf (addConn m k c') k = groupOf m k ++ [c'] := by
  rw [addConn]
  cases hl : lookupAssoc m k with
  | some l => simp [groupOf, lookupAssoc_insertAssoc, hl]
  | none => simp [groupOf, lookupAssoc_insertAssoc, hl]

lemma groupOf_addConn_ne {k k' : String} (m : List (String × List SignalConnection))
    (c' : SignalConnection) (hk : (k' == k) = false) :
    groupOf (addConn m k' c') k = groupOf m k := by
  rw [addConn]
  cases hl : lookupAssoc m k' <;>
    simp [groupOf, lookupAssoc_insertAssoc_ne _ hk]

lemma addConn_mem_self (m : List (String × List SignalConnection)) (k : String)
    (c : SignalConnection) : c ∈ groupOf (addConn m k c) k := by
  rw [groupOf_addConn_self]
  simp

lemma addConn_mono {m : List (String × List SignalConnection)} {k : String}
    {c : SignalConnection} (k' : String) (c' : SignalConnection)
    (h : c ∈ groupOf m k) : c ∈ groupOf (addConn m k' c') k := by
  by_cases hk : (k' == k) = true
  · have hkeq : k' = k := eq_of_beq hk
    subst hkeq
    rw [groupOf_addConn_self]
    exact List.mem_append_left _ h
  · simp only [Bool.not_eq_true] at hk
    rw [groupOf_addConn_ne m c' hk]
    exact h

lemma processStep_mono {m : List (String × List SignalConnection)} {k : String}
    {c : SignalConnection} (row : List (String × String))
    (h : c ∈ groupOf m k) : c ∈ groupOf (processStep m row) k := by
  rw [processStep]
  by_cases h1 : (parse_connection row).origin_device ≠ ""
  · rw [if_pos h1]
    by_cases h2 : (parse_connection row).dest_device ≠ ""
    · rw [if_pos h2]; exact addConn_mono _ _ (addConn_mono _ _ h)
    · rw [if_neg h2]; exact addConn_mono _ _ h
  · rw [if_neg h1]
    by_cases h2 : (parse_connection row).dest_device ≠ ""
    · rw [if_pos h2]; exact addConn_mono _ _ h
    · rw [if_neg h2]; exact h

lemma foldl_processStep_mono {k : String} {c : SignalConnection} :
    ∀ (rows : List (List (String × String))) (m : List (String × List SignalConnection)),
      c ∈ groupOf m k → c ∈ groupOf (rows.foldl processStep m) k
  | [], _, h => h
  | r :: rs, m, h => foldl_processStep_mono rs (processStep m r) (processStep_mono r h)

lemma processStep_adds_origin (m : List (String × List SignalConnection))
    (row : List (String × String)) (h : (parse_connection row).origin_device ≠ "") :
    parse_connection row ∈ groupOf (processStep m row) (parse_connection row).origin_device := by
  rw [processStep]
  rw [if_pos h]
  by_cases h2 : (parse_connection row).dest_device ≠ ""
  · rw [if_pos h2]
    exact addConn_mono _ _ (addConn_mem_self _ _ _)
  · rw [if_neg h2]
    exact addConn_mem_self _ _ _

lemma processStep_adds_dest (m : List (String × List SignalConnection))
    (row : List (String × String)) (h : (parse_connection row).dest_device ≠ "") :
    parse_connection row ∈ groupOf (processStep m row) (parse_connection row).dest_device := by
  rw [processStep]
  by_cases h1 : (parse_connection row).origin_device ≠ ""
  · rw [if_pos h1, if_pos h]
    exact addConn_mem_self _ _ _
  · rw [if_neg h1, if_pos h]
    exact addConn_mem_self _ _ _

lemma process_aux {row : List (String × String)} :
    ∀ (rows : List (List (String × String))) (m : List (String × List SignalConnection)),
      row ∈ rows →
      ((parse_connection row).origin_device ≠ "" →
        parse_connection row ∈
          groupOf (rows.foldl processStep m) (parse_connection row).origin_device) ∧
      ((parse_connection row).dest_device ≠ "" →
        parse_connection row ∈
          groupOf (rows.foldl processStep m) (parse_connection row).dest_device)
  | [], _, h => absurd h (List.not_mem_nil row)
  | r :: rs, m, h => by
      rcases List.mem_cons.mp h with rfl | hmem
      · constructor
        · intro ho
          exact foldl_processStep_mono rs _ (processStep_adds_origin m row ho)
        · intro hd
          exact foldl_processStep_mono rs _ (processStep_adds_dest m row hd)
      · exact process_aux rs (processStep m r) hmem

/-- The claim's concrete connections-table row. -/
def c4Row : List (String × String) :=
  [("NUMBER", "109241"), ("ORIGIN", "TH03 PC2 ACUITY OUT-K1"),
   ("DEST", "TK01 - MDA-1-16(PC2-MV1)RSW-82")]

/-- C4: `process_connection_data` groups every parsed row under its parsed
origin device and under its parsed destination device whenever each is
non-empty (a row with both appears in both groups); the concrete row
`{NUMBER:"109241", ORIGIN:"TH03 PC2 ACUITY OUT-K1",
DEST:"TK01 - MDA-1-16(PC2-MV1)RSW-82"}` parses to origin device `"TH03"` and
destination device `"TK01"` and lands in both groups.
(The claim is about the module's evident intent: `connection_processor.py`
never imports `SignalConnection`/`SignalFlowAnalyzer` and raises `NameError`
at import — see the result record.) -/
theorem c4_groups_origin_and_dest :
    (∀ (rows : List (List (String × String))) (row : List (String × String)),
      row ∈ rows →
      ((parse_connection row).origin_device ≠ "" →
        parse_connection row ∈
          groupOf (process_connection_data rows) (parse_connection row).origin_device) ∧
      ((parse_connection row).dest_device ≠ "" →
        parse_connection row ∈
          groupOf (process_connection_data rows) (parse_connection row).dest_device)) ∧
    (parse_connection c4Row).origin_device = "TH03" ∧
    (parse_connection c4Row).dest_device = "TK01" ∧
    parse_connection c4Row ∈ groupOf (process_connection_data [c4Row]) "TH03" ∧
    parse_connection c4Row ∈ groupOf (process_connection_data [c4Row]) "TK01" := by
  refine ⟨fun rows row h => process_aux rows [] h, by decide, by decide, by decide, by decide⟩

/-- Witness for `c4_groups_origin_and_dest` at the claim's concrete row. -/
theorem c4_grouping_witness :
    parse_connection c4Row ∈
      groupOf (process_connection_data [c4Row]) (parse_connection c4Row).origin_device ∧
    parse_connection c4Row ∈
      groupOf (process_connection_data [c4Row]) (parse_connection c4Row).dest_device :=
  ⟨(c4_groups_origin_and_dest.1 [c4Row] c4Row (by simp)).1 (by decide),
   (c4_groups_origin_and_dest.1 [c4Row] c4Row (by simp)).2 (by decide)⟩

end ConnProc

/-! ## `core/autocad/data_extractors.py` — `DeviceExtractor`

`extract_devices_from_floorplan` filters entities whose `block_name`
upper-cased contains `DEVICE` or `FIXTURE`, parses each with
`_parse_device_block`, and appends only truthy results.
`_parse_device_block` wraps its whole body in `try/except` and returns
`None` on any exception; the only fallible step is
`int(re.search(r'\d+', count_text).group(0))`, whose `.group(0)` raises
`AttributeError` exactly when the count text contains no digit (the default
count text `'0'` always parses).  The outer loop's own `except` can
therefore never fire; a failed block is simply skipped and the loop
continues. -/

namespace DataExtract

/-- The `ExtractedDevice` dataclass.  Coordinates carried opaquely. -/
structure ExtractedDevice where
  id : String
  type : String
  count : Nat
  circuit : String
  location : Int × Int
  attributes : List (String × String)
deriving DecidableEq, Repr

/-- An entity dict with the keys the extractor reads (each `get` defaulted). -/
structure Entity where
  text : String := ""
  position : Int × Int := (0, 0)
  layer : String := ""
  block_name : String := ""
  attributes : List (String × String) := []
deriving DecidableEq, Repr

/-- ASCII `str.upper()` of one character. -/
def upperChar (c : Char) : Char :=
  if isLowerC c then Char.ofNat (c.toNat - 32) else c

/-- ASCII `str.upper()`. -/
def strUpper (s : String) : String := String.mk (s.data.map upperChar)

/-- `_filter_device_blocks` predicate:
`'DEVICE' in block_name.upper() or 'FIXTURE' in block_name.upper()`. -/
def isDeviceBlock (e : Entity) : Bool :=
  strContains (strUpper e.block_name) "DEVICE" ||
  strContains (strUpper e.block_name) "FIXTURE"

/-- `next((v for k, v in attrs.items() if 'COUNT' in k.upper()), ...)`. -/
def firstCountAttr : List (String × String) → Option String
  | [] => none
  | (k, v) :: t => if strContains (strUpper k) "COUNT" then some v else firstCountAttr t

/-- Same for `'CIRCUIT' in k.upper()`. -/
def firstCircuitAttr : List (String × String) → Option String
  | [] => none
  | (k, v) :: t => if strContains (strUpper k) "CIRCUIT" then some v else firstCircuitAttr t

/-- `DeviceExtractor._determine_device_type`. -/
def determineDeviceType (e : Entity) : String :=
  if strContains (strUpper e.block_name) "LIGHT" then "LIGHTING"
  else if strContains (strUpper e.block_name) "RECEPT" then "RECEPTACLE"
  else if strContains (strUpper e.block_name) "SWITCH" then "SWITCH"
  else "UNKNOWN"

/-- `DeviceExtractor._parse_device_block`: `None` exactly when the count
text has no digit (the caught `AttributeError`). -/
def parseDeviceBlock (e : Entity) : Option ExtractedDevice :=
  let count_text := (firstCountAttr e.attributes).getD "0"
  match ITPat.firstDigitRun count_text.data with
  | none => none
  | some ds =>
      some { id := e.block_name, type := determineDeviceType e,
             count := ITPat.natOfDigits ds,
             circuit := (firstCircuitAttr e.attributes).getD "",
             location := e.position, attributes := e.attributes }

/-- `DeviceExtractor.extract_devices_from_floorplan`. -/
def extract_devices_from_floorplan (entities : List Entity) : List ExtractedDevice :=
  (entities.filter isDeviceBlock).filterMap parseDeviceBlock

/-- C8: the empty entity list extracts to the empty result list;
`_parse_device_block` fails (returns `None`) exactly when the block's count
text contains no digit; and a failing block anywhere in the batch is
skipped while extraction of everything around it proceeds unchanged —
one bad block never aborts the batch. -/
theorem c8_bad_block_skipped :
    extract_devices_from_floorplan [] = [] ∧
    (∀ e : Entity, parseDeviceBlock e = none ↔
      ITPat.firstDigitRun ((firstCountAttr e.attributes).getD "0").data = none) ∧
    (∀ (l1 l2 : List Entity) (b : Entity), parseDeviceBlock b = none →
      extract_devices_from_floorplan (l1 ++ b :: l2) =
        extract_devices_from_floorplan l1 ++ extract_devices_from_floorplan l2) := by
  refine ⟨rfl, ?_, ?_⟩
  · intro e
    rw [parseDeviceBlock]
    cases h : ITPat.firstDigitRun ((firstCountAttr e.attributes).getD "0").data with
    | none => simp
    | some ds => simp
  · intro l1 l2 b hb
    rw [extract_devices_from_floorplan, extract_devices_from_floorplan,
      extract_devices_from_floorplan, List.filter_append, List.filter_cons]
    by_cases hd : isDeviceBlock b = true
    · simp [hd, List.filterMap_append, hb]
    · simp [hd, List.filterMap_append]

/-- Concrete blocks for the witness: a good fixture around a device block
whose count text `"N/A"` has no digit. -/
def badBlock : Entity := { block_name := "DEVICE_X", attributes := [("COUNT", "N/A")] }

def goodBlock : Entity :=
  { block_name := "FIXTURE_1", position := (1, 2),
    attributes := [("COUNT", "3"), ("CIRCUIT_ID", "A1-3")] }

/-- Witness for `c8_bad_block_skipped`: the unparseable `badBlock` in the
middle is skipped, both surrounding blocks extract. -/
theorem c8_bad_block_witness :
    extract_devices_from_floorplan ([goodBlock] ++ badBlock :: [goodBlock]) =
      extract_devices_from_floorplan [goodBlock] ++
        extract_devices_from_floorplan [goodBlock] :=
  c8_bad_block_skipped.2.2 [goodBlock] [goodBlock] badBlock (by decide)

end DataExtract

end Dwg2xls
